import Mathlib

/-! Shallow embedding of the yearly-statistics aggregator of the
Mabluz/timetracking repository: `calculateYearlyStatistics` from
`frontend/src/stores/timetracking.ts`, together with the variant of the
same store shipped in the repository whose milestone section is extended
(the variant reads `averageDailyHours` and `coffeeEquivalent` inside the
milestone block before their `const` declarations).

Modelling conventions:
* JavaScript numbers are exact rationals; a non-finite value (`NaN` or an
  infinity, e.g. produced by `undefined` entering arithmetic or by a
  division whose divisor is zero) is modelled as `none` of `Option ℚ`.
  Every arithmetic operation propagates non-finiteness, and every
  JavaScript comparison on a non-finite value yields `false`, as in JS.
* Entry dates are date-only ISO strings; they are modelled by their
  year/month/day components.  `new Date(s).getFullYear()` is the year
  component (UTC reading), and `getTime()` differences in whole days are
  modelled through a days-from-civil conversion (`epochDays`).
* Only the fields of `TimeEntry`/`Project` that the aggregator reads are
  modelled; `totalHours` and `billable` may be absent at run time
  (`none`), which is how the spec's "missing optional fields" behave.
* The ambient configuration values (`VITE_DEFAULT_HOURLY_RATE`,
  `VITE_DEFAULT_WORK_DAY_HOURS`) are passed as explicit parameters
  `rate` and `workDay`; their defaults are 750 and 7.5.
-/

namespace TT

/-- A JavaScript number: `none` stands for a non-finite value (NaN or an
infinity); arithmetic propagates it. -/
abbrev JsNum := Option ℚ

def jsAdd : JsNum → JsNum → JsNum
  | some a, some b => some (a + b)
  | _, _ => none

def jsMul : JsNum → JsNum → JsNum
  | some a, some b => some (a * b)
  | _, _ => none

/-- JavaScript division; a zero divisor produces a non-finite value
(`Infinity` or `NaN`), collapsed to `none` here.  No claim below depends
on distinguishing the two kinds of non-finite result. -/

def jsDiv : JsNum → JsNum → JsNum
  | some a, some b => if b = 0 then none else some (a / b)
  | _, _ => none

/-- JavaScript `x > y`: `false` whenever either side is non-finite NaN;
(a comparison against an infinity never occurs in the claims below). -/

def jsGt (a b : JsNum) : Bool :=
  match a, b with
  | some x, some y => decide (y < x)
  | _, _ => false

/-- JavaScript `x < y` with the same conventions as `jsGt`. -/

def jsLt (a b : JsNum) : Bool :=
  match a, b with
  | some x, some y => decide (x < y)
  | _, _ => false

/-- JavaScript `x >= y` with the same conventions as `jsGt`. -/

def jsGe (a b : JsNum) : Bool :=
  match a, b with
  | some x, some y => decide (y ≤ x)
  | _, _ => false

/-- `Math.round` on a rational: round half toward positive infinity,
which is exactly Mathlib's `round` (`⌊x + 1/2⌋`). -/

def jsRound (a : JsNum) : JsNum :=
  a.map (fun q => ((round q : ℤ) : ℚ))

/-- `Math.round(x * 100) / 100` on a finite value. -/

def round2q (q : ℚ) : ℚ :=
  ((round (q * 100) : ℤ) : ℚ) / 100

/-- `Math.round(x * 100) / 100`, NaN-propagating. -/

def jsRound2 (a : JsNum) : JsNum :=
  a.map round2q

/-- A rational is "rounded to exactly two decimal places" when it is a
fixed point of the source's own 2-decimal rounding (equivalently, when
100·q is an integer). -/

def isTwoDecimal (q : ℚ) : Prop := round2q q = q

instance (q : ℚ) : Decidable (isTwoDecimal q) := by
  unfold isTwoDecimal; infer_instance

/-- A date-only ISO date `YYYY-MM-DD`, by components. -/

structure EDate where
  year : Int
  month : Nat
  day : Nat
deriving DecidableEq

/-- Days since 1970-01-01 of a civil date (Howard Hinnant's
`days_from_civil`); models `new Date(s).getTime() / 86400000` for a
date-only ISO string. -/

def epochDays (d : EDate) : Int :=
  let y : Int := if d.month ≤ 2 then d.year - 1 else d.year
  let m : Int := d.month
  let era : Int := Int.fdiv y 400
  let yoe : Int := y - era * 400
  let doy : Int := Int.fdiv (153 * (if 2 < d.month then m - 3 else m + 9) + 2) 5 + (d.day : Int) - 1
  let doe : Int := yoe * 365 + Int.fdiv yoe 4 - Int.fdiv yoe 100 + doy
  era * 146097 + doe - 719468

/-- A project allocation inside a time entry.  `billable` is an optional
field (`billable?: boolean`), absent = `none`. -/

structure Project where
  name : String
  hoursAllocated : ℚ
  billable : Option Bool
deriving DecidableEq

/-- A time entry, restricted to the fields the aggregator reads.
`totalHours` is `none` when the field is missing at run time
(`undefined`), which the source never guards except in the overtime
computation. -/

structure TimeEntry where
  date : EDate
  totalHours : JsNum
  projects : List Project
deriving DecidableEq

/-- Per-project accumulator record (`YearlyProjectStats`). -/

structure YearlyProjectStats where
  name : String
  totalHours : ℚ
  revenue : ℚ
  percentage : JsNum
  billableHours : ℚ
  nonBillableHours : ℚ
deriving DecidableEq

/-- One month bucket of the monthly breakdown (`MonthlyStats`). -/

structure MonthlyStats where
  month : String
  totalHours : JsNum
  projectHours : List (String × ℚ)
deriving DecidableEq

/-- The busiest/least-busy month sub-record of the report. -/

structure BusyMonthOut where
  month : String
  hours : JsNum
  percentage : JsNum
deriving DecidableEq

/-- The `YearlyStatistics` report. -/

structure YearlyStatistics where
  year : Int
  totalHours : JsNum
  billableHours : ℚ
  nonBillableHours : ℚ
  totalRevenue : ℚ
  averageHourlyRate : ℚ
  topProjects : List YearlyProjectStats
  monthlyBreakdown : List MonthlyStats
  busiestMonth : BusyMonthOut
  leastBusyMonth : BusyMonthOut
  averageDailyHours : JsNum
  workingDays : Nat
  longestStreak : Nat
  milestones : List String
  coffeeEquivalent : JsNum
  totalOvertimeHours : ℚ
  overtimeDays : Nat
  averageOvertimeHours : ℚ
  overtimePercentage : JsNum
deriving DecidableEq

/-- `entries.filter(e => new Date(e.date).getFullYear() === year)`. -/

def yearFilter (entries : List TimeEntry) (year : Int) : List TimeEntry :=
  entries.filter (fun e => e.date.year == year)

/-- Accumulation `totalHours += entry.totalHours` over the filtered
entries (no `|| 0` guard in the source here). -/

def totalHoursSum (es : List TimeEntry) : JsNum :=
  es.foldl (fun a e => jsAdd a e.totalHours) (some 0)

/-- `Math.max(0, (entry.totalHours || 0) - defaultWorkDayHours)`. -/

def entryOvertime (e : TimeEntry) (workDay : ℚ) : ℚ :=
  max 0 (e.totalHours.getD 0 - workDay)

def totalOvertimeHoursAcc (es : List TimeEntry) (workDay : ℚ) : ℚ :=
  es.foldl (fun a e => if 0 < entryOvertime e workDay then a + entryOvertime e workDay else a) 0

def overtimeDaysAcc (es : List TimeEntry) (workDay : ℚ) : Nat :=
  es.foldl (fun a e => if 0 < entryOvertime e workDay then a + 1 else a) 0

/-- The sequence of project allocations in entry order (the source's
nested `forEach` visits exactly this sequence). -/

def allAllocations (es : List TimeEntry) : List Project :=
  (es.map TimeEntry.projects).flatten

/-- `project.billable !== false`: absent or `true` count as billable. -/

def isBillable (p : Project) : Bool :=
  match p.billable with
  | some false => false
  | _ => true

def billableHoursAcc (ps : List Project) : ℚ :=
  ps.foldl (fun a p => if isBillable p then a + p.hoursAllocated else a) 0

def nonBillableHoursAcc (ps : List Project) : ℚ :=
  ps.foldl (fun a p => if isBillable p then a else a + p.hoursAllocated) 0

/-- The fresh record `projectStats.get(name) || { name, 0, 0, 0, 0, 0 }`. -/

def freshStats (n : String) : YearlyProjectStats :=
  ⟨n, 0, 0, some 0, 0, 0⟩

/-- Body of the inner `forEach`: add one allocation to a record. -/

def updateStats (s : YearlyProjectStats) (p : Project) (rate : ℚ) : YearlyProjectStats :=
  let s := { s with totalHours := s.totalHours + p.hoursAllocated }
  if isBillable p then
    { s with billableHours := s.billableHours + p.hoursAllocated,
             revenue := s.revenue + p.hoursAllocated * rate }
  else
    { s with nonBillableHours := s.nonBillableHours + p.hoursAllocated }

/-- `projectStats.set(name, updated)`: a JS `Map` keeps the position of an
existing key and appends a new key at the end. -/

def upsertProject (acc : List YearlyProjectStats) (p : Project) (rate : ℚ) : List YearlyProjectStats :=
  match acc with
  | [] => [updateStats (freshStats p.name) p rate]
  | s :: rest =>
    if s.name = p.name then updateStats s p rate :: rest
    else s :: upsertProject rest p rate

def projectStatsAcc (ps : List Project) (rate : ℚ) : List YearlyProjectStats :=
  ps.foldl (fun acc p => upsertProject acc p rate) []

/-- `project.percentage = (project.totalHours / totalHours) * 100`. -/

def withPercentages (stats : List YearlyProjectStats) (total : JsNum) : List YearlyProjectStats :=
  stats.map (fun s => { s with percentage := jsMul (jsDiv (some s.totalHours) total) (some 100) })

/-- Comparator of the `topProjects` sort: revenue descending, ties by
total hours descending ("`a` may come before `b`"). -/

def projBefore (a b : YearlyProjectStats) : Prop :=
  b.revenue < a.revenue ∨ (a.revenue = b.revenue ∧ b.totalHours ≤ a.totalHours)

instance : DecidableRel projBefore := fun a b => by
  unfold projBefore; infer_instance

/-- Comparator of the entry sort `(a, b) => getTime(a) - getTime(b)`. -/

def dateLe (a b : TimeEntry) : Prop :=
  epochDays a.date ≤ epochDays b.date

instance : DecidableRel dateLe := fun a b => by
  unfold dateLe; infer_instance

def monthNames : List String :=
  ["Jan", "Feb", "Mar", "Apr", "May", "Jun", "Jul", "Aug", "Sep", "Oct", "Nov", "Dec"]

/-- The twelve initialized buckets keyed by `YYYY-MM` (here: the pair of
year and month number). -/

def initMonthly (year : Int) : List ((Int × Nat) × MonthlyStats) :=
  [((year, 1), ⟨"Jan", some 0, []⟩), ((year, 2), ⟨"Feb", some 0, []⟩),
   ((year, 3), ⟨"Mar", some 0, []⟩), ((year, 4), ⟨"Apr", some 0, []⟩),
   ((year, 5), ⟨"May", some 0, []⟩), ((year, 6), ⟨"Jun", some 0, []⟩),
   ((year, 7), ⟨"Jul", some 0, []⟩), ((year, 8), ⟨"Aug", some 0, []⟩),
   ((year, 9), ⟨"Sep", some 0, []⟩), ((year, 10), ⟨"Oct", some 0, []⟩),
   ((year, 11), ⟨"Nov", some 0, []⟩), ((year, 12), ⟨"Dec", some 0, []⟩)]

/-- `monthlyStats.get(key)`: first match in the association list. -/

def getMonth : List ((Int × Nat) × MonthlyStats) → Int × Nat → Option MonthlyStats
  | [], _ => none
  | (k, v) :: rest, key => if k = key then some v else getMonth rest key

/-- `monthlyStats.set(key, v)`: replace in place, or append a new key. -/

def setMonth : List ((Int × Nat) × MonthlyStats) → Int × Nat → MonthlyStats → List ((Int × Nat) × MonthlyStats)
  | [], key, v => [(key, v)]
  | (k, w) :: rest, key, v =>
    if k = key then (key, v) :: rest else (k, w) :: setMonth rest key v

/-- `projectHours[name] = (projectHours[name] || 0) + hours` on a JS
object, whose property order is insertion order. -/

def addProjectHours : List (String × ℚ) → String → ℚ → List (String × ℚ)
  | [], n, h => [(n, h)]
  | (m, v) :: rest, n, h =>
    if m = n then (m, v + h) :: rest else (m, v) :: addProjectHours rest n h

/-- The bucket fetched for one entry, or the fresh fallback whose name
comes from `monthNames[monthIndex]`. -/

def entryMonthBase (ms : List ((Int × Nat) × MonthlyStats)) (e : TimeEntry) : MonthlyStats :=
  (getMonth ms (e.date.year, e.date.month)).getD
    ⟨(monthNames.getD (e.date.month - 1) "undefined"), some 0, []⟩

/-- The month record the source builds for one entry: fetch the bucket,
add the entry's `totalHours`, fold its allocations into `projectHours`. -/

def entryMonthRecord (ms : List ((Int × Nat) × MonthlyStats)) (e : TimeEntry) : MonthlyStats :=
  { month := (entryMonthBase ms e).month
    totalHours := jsAdd (entryMonthBase ms e).totalHours e.totalHours
    projectHours := e.projects.foldl (fun ph p => addProjectHours ph p.name p.hoursAllocated)
      (entryMonthBase ms e).projectHours }

/-- Body of the monthly `forEach` over one entry. -/

def applyEntryMonth (ms : List ((Int × Nat) × MonthlyStats)) (e : TimeEntry) : List ((Int × Nat) × MonthlyStats) :=
  setMonth ms (e.date.year, e.date.month) (entryMonthRecord ms e)

def monthlyStatsOf (year : Int) (es : List TimeEntry) : List ((Int × Nat) × MonthlyStats) :=
  es.foldl applyEntryMonth (initMonthly year)

/-- The `{ month: 'N/A', totalHours: 0 }` fallback of the busiest-month
reduction. -/

def naMonth : MonthlyStats := ⟨"N/A", some 0, []⟩

/-- `monthsWithHours.reduce((max, m) => m.totalHours > max.totalHours ? m : max, head || fallback)`. -/

def busiestMonthOf (l : List MonthlyStats) : MonthlyStats :=
  l.foldl (fun mx m => if jsGt m.totalHours mx.totalHours then m else mx) (l.head?.getD naMonth)

def leastBusyMonthOf (l : List MonthlyStats) : MonthlyStats :=
  l.foldl (fun mn m => if jsLt m.totalHours mn.totalHours then m else mn) (l.head?.getD naMonth)

/-- The streak walk of the source: iterate the date numbers of the sorted
entries, reset on any gap other than exactly one day, take the maximum at
the end.  `last = none` models `lastDate === null`. -/

def streakGo : Nat → Nat → Option Int → List Int → Nat
  | longest, current, _, [] => max longest current
  | longest, _, none, d :: rest => streakGo longest 1 (some d) rest
  | longest, current, some last, d :: rest =>
    if d - last = 1 then streakGo longest (current + 1) (some d) rest
    else streakGo (max longest current) 1 (some d) rest

def daysOf (e : TimeEntry) : Int := epochDays e.date

/-- The source's `longestStreak`: walk over the entries sorted by date
(without removing duplicate dates). -/

def longestStreakOf (es : List TimeEntry) : Nat :=
  streakGo 0 0 none ((List.insertionSort dateLe es).map daysOf)

/-- The six milestone predicates of the main store variant, pushed in
source order. -/

def milestonesV1 (totalJ : JsNum) (billable : ℚ) (streak workingDays : Nat) : List String :=
  (if jsGe totalJ (some 1000) then ["🎯 1000+ Hours Logged"] else [])
  ++ (if jsGe totalJ (some 1500) then ["🚀 1500+ Hours Achieved"] else [])
  ++ (if jsGe totalJ (some 2000) then ["⭐ 2000+ Hours Mastery"] else [])
  ++ (if jsGt (jsDiv (some billable) totalJ) (some 0.8) then ["💰 80%+ Billable Hours"] else [])
  ++ (if 30 ≤ streak then ["🔥 30+ Day Work Streak"] else [])
  ++ (if 200 ≤ workingDays then ["📅 200+ Working Days"] else [])

/-- The report built after the non-empty early return, mirroring the
source statement by statement (the source's single pass over
`yearEntries` updates independent accumulators, embedded here as one
fold per accumulator).  The milestone list is a parameter because the
two store variants compute it differently. -/

def reportCore (yearEntries : List TimeEntry) (year : Int) (rate workDay : ℚ)
    (milestones : List String) : YearlyStatistics :=
  let totalJ := totalHoursSum yearEntries
  let allocs := allAllocations yearEntries
  let billable := billableHoursAcc allocs
  let nonBillable := nonBillableHoursAcc allocs
  let totalOT := totalOvertimeHoursAcc yearEntries workDay
  let otDays := overtimeDaysAcc yearEntries workDay
  let stats := withPercentages (projectStatsAcc allocs rate) totalJ
  let topProjects := List.insertionSort projBefore stats
  let monthlyBreakdown := (monthlyStatsOf year yearEntries).map Prod.snd
  let monthsWithHours := monthlyBreakdown.filter (fun m => jsGt m.totalHours (some 0))
  let busiest := busiestMonthOf monthsWithHours
  let least := leastBusyMonthOf monthsWithHours
  let workingDays := yearEntries.length
  let streak := longestStreakOf yearEntries
  let adh := if 0 < workingDays then jsDiv totalJ (some (workingDays : ℚ)) else some 0
  let coffee := jsRound (jsDiv totalJ (some 4))
  let avgOT := if 0 < otDays then totalOT / (otDays : ℚ) else 0
  let otPct := if jsGt totalJ (some 0) then jsMul (jsDiv (some totalOT) totalJ) (some 100) else some 0
  { year := year
    totalHours := jsRound2 totalJ
    billableHours := round2q billable
    nonBillableHours := round2q nonBillable
    totalRevenue := ((round (billable * rate) : ℤ) : ℚ)
    averageHourlyRate := rate
    topProjects := topProjects
    monthlyBreakdown := monthlyBreakdown
    busiestMonth :=
      ⟨busiest.month, jsRound2 busiest.totalHours,
        if jsGt totalJ (some 0) then jsRound2 (jsMul (jsDiv busiest.totalHours totalJ) (some 100)) else some 0⟩
    leastBusyMonth :=
      ⟨least.month, jsRound2 least.totalHours,
        if jsGt totalJ (some 0) then jsRound2 (jsMul (jsDiv least.totalHours totalJ) (some 100)) else some 0⟩
    averageDailyHours := jsRound2 adh
    workingDays := workingDays
    longestStreak := streak
    milestones := milestones
    coffeeEquivalent := coffee
    totalOvertimeHours := round2q totalOT
    overtimeDays := otDays
    averageOvertimeHours := round2q avgOT
    overtimePercentage := jsRound2 otPct }

/-- The main variant's report: the six-predicate milestone list is
computed from the aggregates. -/

def buildReport (yearEntries : List TimeEntry) (year : Int) (rate workDay : ℚ) : YearlyStatistics :=
  reportCore yearEntries year rate workDay
    (milestonesV1 (totalHoursSum yearEntries)
      (billableHoursAcc (allAllocations yearEntries))
      (longestStreakOf yearEntries) yearEntries.length)

/-- `calculateYearlyStatistics` of the main store variant. -/

def calculateYearlyStatistics (entries : List TimeEntry) (year : Int) (rate workDay : ℚ) :
    Option YearlyStatistics :=
  let yearEntries := yearFilter entries year
  if yearEntries.length = 0 then none
  else some (buildReport yearEntries year rate workDay)



/-! ### Spec-side reference definitions

These two definitions follow the spec's words, for comparison with the
source-derived definitions above (refinement claims C5/C6). -/

/-- Walk of the spec: over already-sorted distinct day numbers, a gap of
exactly one day continues the streak, any other gap resets it to 1, and
the maximum run length is tracked. -/

def specWalk : Int → Nat → Nat → List Int → Nat
  | _, best, cur, [] => max best cur
  | prev, best, cur, d :: rest =>
    if d - prev = 1 then specWalk d best (cur + 1) rest
    else specWalk d (max best cur) 1 rest

/-- Modelled from the spec: "sort distinct entry dates ascending, walk
consecutive-day runs (gap of exactly 1 calendar day continues a streak;
any other gap resets it to 1); track the maximum run length". -/

def specLongestStreak (es : List TimeEntry) : Nat :=
  match List.insertionSort (· ≤ ·) (es.map daysOf).dedup with
  | [] => 0
  | d :: rest => specWalk d 0 1 rest

/-! ### Basic lemmas about the JS-number operations -/

instance : IsTotal TimeEntry dateLe :=
  ⟨fun a b => le_total (epochDays a.date) (epochDays b.date)⟩

instance : IsTrans TimeEntry dateLe :=
  ⟨fun _ _ _ hab hbc => le_trans hab hbc⟩

instance : IsTotal YearlyProjectStats projBefore := by
  constructor
  intro a b
  rcases lt_trichotomy a.revenue b.revenue with h | h | h
  · exact Or.inr (Or.inl h)
  · rcases le_total a.totalHours b.totalHours with ht | ht
    · exact Or.inr (Or.inr ⟨h.symm, ht⟩)
    · exact Or.inl (Or.inr ⟨h, ht⟩)
  · exact Or.inl (Or.inl h)

instance : IsTrans YearlyProjectStats projBefore := by
  constructor
  intro a b c hab hbc
  rcases hab with h1 | ⟨h1, t1⟩ <;> rcases hbc with h2 | ⟨h2, t2⟩
  · exact Or.inl (h2.trans h1)
  · exact Or.inl (h2 ▸ h1)
  · exact Or.inl (by rw [h1]; exact h2)
  · exact Or.inr ⟨h1.trans h2, t2.trans t1⟩

/-! ### The entry sort projects onto a plain sort of day numbers -/

def projInv (rate : ℚ) (s : YearlyProjectStats) : Prop :=
  s.revenue = s.billableHours * rate ∧ s.totalHours = s.billableHours + s.nonBillableHours

def tdzReadAdh (v : Option ℚ) : Except String ℚ :=
  match v with
  | some q => Except.ok q
  | none => Except.error "ReferenceError: Cannot access averageDailyHours before initialization"

def tdzReadCoffee (v : Option ℚ) : Except String ℚ :=
  match v with
  | some q => Except.ok q
  | none => Except.error "ReferenceError: Cannot access coffeeEquivalent before initialization"

/-- `new Date(s).getDay()`: 0 = Sunday … 6 = Saturday (1970-01-01 was a
Thursday). -/

def getDay (d : EDate) : Int := (epochDays d + 4) % 7

def jsMax : JsNum → JsNum → JsNum
  | some a, some b => some (max a b)
  | _, _ => none

/-- `Math.max(...xs)`; only applied to non-empty spreads in the source. -/

def jsMaxList : List JsNum → JsNum
  | [] => none
  | x :: xs => xs.foldl jsMax x

def getMH : List ((Int × Nat) × JsNum) → Int × Nat → Option JsNum
  | [], _ => none
  | (k, v) :: rest, key => if k = key then some v else getMH rest key

def setMH : List ((Int × Nat) × JsNum) → Int × Nat → JsNum → List ((Int × Nat) × JsNum)
  | [], key, v => [(key, v)]
  | (k, w) :: rest, key, v =>
    if k = key then (key, v) :: rest else (k, w) :: setMH rest key v

/-- `monthlyHours.set(m, (monthlyHours.get(m) || 0) + entry.totalHours)`;
note that `|| 0` turns both a missing bucket and a stored NaN into 0. -/

def monthlyHoursMap (es : List TimeEntry) : List ((Int × Nat) × JsNum) :=
  es.foldl (fun mh e =>
    let key := (e.date.year, e.date.month)
    let prev : ℚ := match getMH mh key with
      | some (some q) => q
      | _ => 0
    setMH mh key (jsAdd (some prev) e.totalHours)) []

/-- Beginner-block milestones evaluated before the first
temporal-dead-zone read. -/

def milestonesBeginnerA (totalJ : JsNum) (streak wdays numEntries : Nat) : List String :=
  (if jsGe totalJ (some 10) then ["🌱 Getting Started: 10+ Hours"] else [])
  ++ (if jsGe totalJ (some 50) then ["🔥 Month Warrior: 50+ Hours"] else [])
  ++ (if 5 ≤ streak then ["📈 Consistency: 5-Day Streak"] else [])
  ++ (if 25 ≤ wdays then ["🗓️ Dedicated: 25+ Work Days"] else [])
  ++ (if jsGe totalJ (some 100) then ["💪 Century Club: 100+ Hours"] else [])
  ++ (if 10 ≤ numEntries then ["📝 Regular: First 10 Entries"] else [])

/-- Rest of the beginner block, after `averageDailyHours` is read. -/

def milestonesBeginnerB (a : ℚ) (otDays : Nat) : List String :=
  (if 6 ≤ a then ["⚡ Productive: 6h Daily Average"] else [])
  ++ (if 1 ≤ otDays then ["💼 Overtime Veteran: First Overtime Day"] else [])

def milestonesIntermediate (totalJ : JsNum) (billable a totalOT : ℚ)
    (streak wdays numEntries : Nat) : List String :=
  (if jsGe totalJ (some 250) then ["🚀 Acceleration: 250+ Hours"] else [])
  ++ (if 14 ≤ streak then ["🔥 Fortitude: 2-Week Streak"] else [])
  ++ (if 50 ≤ wdays then ["🎯 Dedicated Professional: 50+ Days"] else [])
  ++ (if jsGe totalJ (some 500) then ["🎯 Half Marathon: 500+ Hours"] else [])
  ++ (if jsGt (jsDiv (some billable) totalJ) (some 0.7) then ["💼 Client Focus: 70%+ Billable"] else [])
  ++ (if 7 ≤ a then ["⏰ Dedicated: 7h Daily Average"] else [])
  ++ (if 50 ≤ totalOT then ["🔥 Overtime Master: 50h Overtime"] else [])
  ++ (if 50 ≤ numEntries then ["📊 Diligent: 50+ Time Entries"] else [])

/-- Advanced block up to the `coffeeEquivalent` read. -/

def milestonesAdvancedA (totalJ : JsNum) (billable a : ℚ) (streak wdays : Nat) : List String :=
  (if jsGe totalJ (some 1000) then ["🎯 Thousand Club: 1000+ Hours"] else [])
  ++ (if 30 ≤ streak then ["🔥 Iron Will: 30-Day Streak"] else [])
  ++ (if 100 ≤ wdays then ["💼 Dedicated Expert: 100+ Days"] else [])
  ++ (if jsGe totalJ (some 1500) then ["🚀 High Achiever: 1500+ Hours"] else [])
  ++ (if jsGt (jsDiv (some billable) totalJ) (some 0.8) then ["💰 Efficiency Master: 80%+ Billable"] else [])
  ++ (if 8 ≤ a then ["⚡ Workhorse: 8h Daily Average"] else [])

def milestonesAdvancedB (cof totalOT : ℚ) (numEntries : Nat) : List String :=
  (if 250 ≤ cof then ["☕ Caffeinated: 250+ Coffee Cups"] else [])
  ++ (if 100 ≤ totalOT then ["🔥 Overtime Champion: 100h Overtime"] else [])
  ++ (if 100 ≤ numEntries then ["📝 Meticulous: 100+ Entries"] else [])

def milestonesExpert (totalJ : JsNum) (billable a cof totalOT : ℚ)
    (streak wdays numEntries : Nat) : List String :=
  (if jsGe totalJ (some 2000) then ["⭐ Mastery: 2000+ Hours"] else [])
  ++ (if 60 ≤ streak then ["🔥 Unstoppable: 60-Day Streak"] else [])
  ++ (if 200 ≤ wdays then ["📅 Work Legend: 200+ Days"] else [])
  ++ (if jsGe totalJ (some 2500) then ["🚀 Superhuman: 2500+ Hours"] else [])
  ++ (if jsGt (jsDiv (some billable) totalJ) (some 0.9) then ["💰 Perfect Client: 90%+ Billable"] else [])
  ++ (if 9 ≤ a then ["⚡ Machine: 9h Daily Average"] else [])
  ++ (if 500 ≤ cof then ["☕ Coffee Master: 500+ Cups"] else [])
  ++ (if 200 ≤ totalOT then ["🔥 Overtime Titan: 200h Overtime"] else [])
  ++ (if 200 ≤ numEntries then ["📝 Data Master: 200+ Entries"] else [])

def milestonesLegendary (totalJ : JsNum) (billable a totalOT : ℚ)
    (streak wdays numEntries : Nat) : List String :=
  (if jsGe totalJ (some 3000) then ["👑 Legend: 3000+ Hours"] else [])
  ++ (if 90 ≤ streak then ["🔥 Immortal: 90-Day Streak"] else [])
  ++ (if 250 ≤ wdays then ["📅 Workaholic: 250+ Days"] else [])
  ++ (if jsGe totalJ (some 4000) then ["🚀 Demigod: 4000+ Hours"] else [])
  ++ (if jsGe (jsDiv (some billable) totalJ) (some 1) then ["💰 Perfect Year: 100% Billable"] else [])
  ++ (if 10 ≤ a then ["⚡ Beast Mode: 10h Daily Average"] else [])
  ++ (if 500 ≤ totalOT then ["🔥 Overtime God: 500h Overtime"] else [])
  ++ (if 500 ≤ numEntries then ["📝 Historian: 500+ Entries"] else [])

def milestonesMonthPeak (yearEntries : List TimeEntry) : List String :=
  let maxMonthly := jsMaxList ((monthlyHoursMap yearEntries).map Prod.snd)
  (if jsGe maxMonthly (some 100) then ["📈 Month Crusher: 100h in One Month"] else [])
  ++ (if jsGe maxMonthly (some 150) then ["🔥 Month Beast: 150h in One Month"] else [])
  ++ (if jsGe maxMonthly (some 200) then ["🚀 Month Legend: 200h in One Month"] else [])

def milestonesWeekend (yearEntries : List TimeEntry) : List String :=
  let weekendDays := (yearEntries.filter (fun e => getDay e.date == 0 || getDay e.date == 6)).length
  (if 10 ≤ weekendDays then ["🎮 Weekend Warrior: 10+ Weekend Days"] else [])
  ++ (if 25 ≤ weekendDays then ["🔥 Weekend Champion: 25+ Weekend Days"] else [])

def milestonesMarathon (yearEntries : List TimeEntry) : List String :=
  let maxDayHours := jsMaxList (yearEntries.map TimeEntry.totalHours)
  (if jsGe maxDayHours (some 12) then ["🏃 Marathon Day: 12h+ in One Day"] else [])
  ++ (if jsGe maxDayHours (some 15) then ["🚀 Ultra Marathon: 15h+ in One Day"] else [])
  ++ (if jsGe maxDayHours (some 20) then ["👑 Superhuman: 20h+ in One Day"] else [])

def milestonesConsistency (year : Int) (wdays : Nat) : List String :=
  let possibleWorkDays : Int := epochDays ⟨year, 12, 31⟩ - epochDays ⟨year, 1, 1⟩
  let consistencyPercentage : ℚ := ((wdays : ℚ) / (possibleWorkDays : ℚ)) * 100
  (if 80 ≤ consistencyPercentage then ["🎯 Consistency King: 80%+ Work Days"] else [])
  ++ (if 90 ≤ consistencyPercentage then ["🔥 Work Machine: 90%+ Work Days"] else [])
  ++ (if 95 ≤ consistencyPercentage then ["👑 Perfect Attendance: 95%+ Work Days"] else [])

def milestonesDiversity (yearEntries : List TimeEntry) (totalJ : JsNum) (totalOT : ℚ) : List String :=
  let uniqueProjects := ((yearEntries.map (fun e => e.projects.map Project.name)).flatten).dedup.length
  (if totalOT = 0 ∧ jsGe totalJ (some 500) then ["⚖️ Balanced Life: Zero Overtime at 500h+"] else [])
  ++ (if 5 ≤ uniqueProjects then ["🎯 Project Explorer: 5+ Different Projects"] else [])
  ++ (if 10 ≤ uniqueProjects then ["🔥 Project Master: 10+ Different Projects"] else [])
  ++ (if 20 ≤ uniqueProjects then ["🚀 Jack of All Trades: 20+ Different Projects"] else [])

/-- The milestone block of the extended variant, in source order.  The
reads of `averageDailyHours` and `coffeeEquivalent` go through the
temporal-dead-zone accessors; every later read reuses the first one,
which is equivalent because a thrown first read already aborts. -/

def milestonesV2 (numEntries : Nat) (yearEntries : List TimeEntry) (year : Int)
    (totalJ : JsNum) (billable : ℚ) (streak wdays otDays : Nat) (totalOT : ℚ)
    (adh coffee : Option ℚ) : Except String (List String) :=
  (tdzReadAdh adh).bind (fun a =>
    (tdzReadCoffee coffee).bind (fun cof =>
      Except.ok
        (milestonesBeginnerA totalJ streak wdays numEntries
          ++ milestonesBeginnerB a otDays
          ++ milestonesIntermediate totalJ billable a totalOT streak wdays numEntries
          ++ milestonesAdvancedA totalJ billable a streak wdays
          ++ milestonesAdvancedB cof totalOT numEntries
          ++ milestonesExpert totalJ billable a cof totalOT streak wdays numEntries
          ++ milestonesLegendary totalJ billable a totalOT streak wdays numEntries
          ++ milestonesMonthPeak yearEntries
          ++ milestonesWeekend yearEntries
          ++ milestonesMarathon yearEntries
          ++ milestonesConsistency year wdays
          ++ milestonesDiversity yearEntries totalJ totalOT)))

/-- `calculateYearlyStatistics` of the extended-milestones variant.  The
accumulation code is identical to the main variant (shared definitions
above); the milestone block runs before the `const` declarations of
`averageDailyHours` and `coffeeEquivalent`, so those two reads are in
their temporal dead zone (`none`). -/

def calculateYearlyStatisticsV2 (entries : List TimeEntry) (year : Int) (rate workDay : ℚ) :
    Except String (Option YearlyStatistics) :=
  let yearEntries := yearFilter entries year
  if yearEntries.length = 0 then Except.ok none
  else
    (milestonesV2 entries.length yearEntries year
        (totalHoursSum yearEntries)
        (billableHoursAcc (allAllocations yearEntries))
        (longestStreakOf yearEntries) yearEntries.length
        (overtimeDaysAcc yearEntries workDay)
        (totalOvertimeHoursAcc yearEntries workDay)
        none none).bind
      (fun milestones => Except.ok (some (reportCore yearEntries year rate workDay milestones)))

/-- The milestone block of the variant always aborts while
`averageDailyHours` is in its temporal dead zone. -/

def fillProjBillable (p : Project) : Project :=
  match p.billable with
  | none => { p with billable := some true }
  | some _ => p

def fillBillable (e : TimeEntry) : TimeEntry :=
  { e with projects := e.projects.map fillProjBillable }

/-- Make an absent `totalHours` explicit as the default `0` (the
`value || 0` reading of the spec). -/

def fillHours (e : TimeEntry) : TimeEntry :=
  { e with totalHours := some (e.totalHours.getD 0) }

theorem jsAdd_none_left (b : JsNum) : jsAdd none b = none := by
  cases b <;> rfl

theorem jsAdd_some_some (a b : ℚ) : jsAdd (some a) (some b) = some (a + b) := rfl

theorem foldl_jsAdd_none (es : List TimeEntry) :
    es.foldl (fun a e => jsAdd a e.totalHours) none = none := by
  induction es with
  | nil => rfl
  | cons e es ih => simpa [jsAdd_none_left] using ih

/-- If every entry carries a finite `totalHours`, the source's running
total is the plain sum of the values. -/

theorem foldl_jsAdd_some (es : List TimeEntry)
    (h : ∀ e ∈ es, e.totalHours.isSome) :
    ∀ a : ℚ, es.foldl (fun x e => jsAdd x e.totalHours) (some a) =
      some (a + (es.map (fun e => e.totalHours.getD 0)).sum) := by
  induction es with
  | nil => intro a; simp
  | cons e es ih =>
    intro a
    obtain ⟨q, hq⟩ := Option.isSome_iff_exists.mp (h e (List.mem_cons_self e es))
    have ih' := ih (fun x hx => h x (List.mem_cons_of_mem e hx))
    simp only [List.foldl_cons, hq, jsAdd_some_some, List.map_cons, List.sum_cons,
      Option.getD_some]
    rw [ih' (a + q)]
    rw [Option.some_inj]
    ring

/-- A single missing `totalHours` poisons the running total. -/

theorem foldl_jsAdd_isNone (es : List TimeEntry)
    (h : ∃ e ∈ es, e.totalHours = none) :
    ∀ a : JsNum, es.foldl (fun x e => jsAdd x e.totalHours) a = none := by
  induction es with
  | nil => simp at h
  | cons e es ih =>
    intro a
    obtain ⟨x, hx, hnone⟩ := h
    rcases List.mem_cons.mp hx with rfl | hmem
    · simp only [List.foldl_cons, hnone]
      have : jsAdd a none = none := by cases a <;> rfl
      rw [this, foldl_jsAdd_none]
    · exact ih ⟨x, hmem, hnone⟩ _

theorem totalHoursSum_eq_sum (es : List TimeEntry)
    (h : ∀ e ∈ es, e.totalHours.isSome) :
    totalHoursSum es = some ((es.map (fun e => e.totalHours.getD 0)).sum) := by
  unfold totalHoursSum
  rw [foldl_jsAdd_some es h 0, zero_add]

/-- Conditional-sum folds (billable hours, overtime hours) are sums over
the filtered list. -/

theorem foldl_cond_sum {α : Type} (c : α → Bool) (f : α → ℚ) (l : List α) :
    ∀ a : ℚ, l.foldl (fun x p => if c p then x + f p else x) a =
      a + ((l.filter c).map f).sum := by
  induction l with
  | nil => intro a; simp
  | cons p l ih =>
    intro a
    by_cases hc : c p
    · simp only [List.foldl_cons, hc, if_true, List.filter_cons_of_pos hc,
        List.map_cons, List.sum_cons]
      rw [ih (a + f p)]; ring_nf
    · simp only [List.foldl_cons, hc, if_false, List.filter_cons_of_neg (by simpa using hc)]
      exact ih a

theorem foldl_cond_count {α : Type} (c : α → Bool) (l : List α) :
    ∀ a : Nat, l.foldl (fun x p => if c p then x + 1 else x) a =
      a + (l.filter c).length := by
  induction l with
  | nil => intro a; simp
  | cons p l ih =>
    intro a
    by_cases hc : c p
    · simp only [List.foldl_cons, hc, if_true, List.filter_cons_of_pos hc, List.length_cons]
      rw [ih (a + 1)]; omega
    · simp only [List.foldl_cons, hc, if_false, List.filter_cons_of_neg (by simpa using hc)]
      exact ih a

theorem twoDecimal_round2q (q : ℚ) : isTwoDecimal (round2q q) := by
  unfold isTwoDecimal round2q
  rw [div_mul_cancel₀ _ (by norm_num : (100 : ℚ) ≠ 0), round_intCast]

/-! ### Unfolding the aggregator -/

theorem calc_eq_some (entries : List TimeEntry) (year : Int) (rate workDay : ℚ)
    (h : yearFilter entries year ≠ []) :
    calculateYearlyStatistics entries year rate workDay =
      some (buildReport (yearFilter entries year) year rate workDay) := by
  unfold calculateYearlyStatistics
  rw [if_neg]
  simpa [List.length_eq_zero] using h

theorem calc_isNone_iff (entries : List TimeEntry) (year : Int) (rate workDay : ℚ) :
    calculateYearlyStatistics entries year rate workDay = none ↔
      yearFilter entries year = [] := by
  unfold calculateYearlyStatistics
  by_cases h : (yearFilter entries year).length = 0
  · simp [h, List.length_eq_zero.mp h]
  · simp [h, List.length_eq_zero.not.mp h]



/-! ### Order instances for the two comparators -/

theorem map_daysOf_orderedInsert (e : TimeEntry) (l : List TimeEntry) :
    (List.orderedInsert dateLe e l).map daysOf =
      List.orderedInsert (· ≤ ·) (daysOf e) (l.map daysOf) := by
  induction l with
  | nil => rfl
  | cons b l ih =>
    simp only [List.orderedInsert, List.map_cons]
    by_cases h : daysOf e ≤ daysOf b
    · rw [if_pos (show dateLe e b from h), if_pos h, List.map_cons, List.map_cons]
    · rw [if_neg (show ¬dateLe e b from h), if_neg h, List.map_cons, ih]

theorem map_daysOf_insertionSort (l : List TimeEntry) :
    (List.insertionSort dateLe l).map daysOf =
      List.insertionSort (· ≤ ·) (l.map daysOf) := by
  induction l with
  | nil => rfl
  | cons a l ih =>
    simp only [List.insertionSort]
    rw [map_daysOf_orderedInsert, ih]

/-! ### The source walk equals the spec walk on the same date list -/

theorem streakGo_eq_specWalk (l : List Int) :
    ∀ (p : Int) (best cur : Nat), streakGo best cur (some p) l = specWalk p best cur l := by
  induction l with
  | nil => intro p best cur; rfl
  | cons d rest ih =>
    intro p best cur
    by_cases h : d - p = 1
    · simp only [streakGo, specWalk, if_pos h]; exact ih d best (cur + 1)
    · simp only [streakGo, specWalk, if_neg h]; exact ih d (max best cur) 1

/-- With pairwise-distinct entry dates, the source's streak equals the
spec's distinct-dates streak. -/

theorem longestStreak_eq_spec (es : List TimeEntry)
    (h : (es.map daysOf).Nodup) :
    longestStreakOf es = specLongestStreak es := by
  unfold longestStreakOf specLongestStreak
  rw [map_daysOf_insertionSort, List.dedup_eq_self.mpr h]
  generalize List.insertionSort (· ≤ ·) (es.map daysOf) = s
  cases s with
  | nil => rfl
  | cons d rest =>
    exact streakGo_eq_specWalk rest d 0 1



/-! ### Association-list lemmas for the monthly `Map` -/

theorem getMonth_isSome_of_mem (ms : List ((Int × Nat) × MonthlyStats)) (k : Int × Nat)
    (h : k ∈ ms.map Prod.fst) : ∃ w, getMonth ms k = some w := by
  induction ms with
  | nil => simp at h
  | cons kv rest ih =>
    obtain ⟨k0, v0⟩ := kv
    rw [List.map_cons] at h
    by_cases hk : k0 = k
    · exact ⟨v0, by simp [getMonth, hk]⟩
    · rcases List.mem_cons.mp h with h0 | h0
      · exact absurd h0.symm hk
      · obtain ⟨w, hw⟩ := ih h0
        exact ⟨w, by simp [getMonth, hk, hw]⟩

theorem setMonth_fst (ms : List ((Int × Nat) × MonthlyStats)) (k : Int × Nat) (v : MonthlyStats)
    (h : k ∈ ms.map Prod.fst) :
    (setMonth ms k v).map Prod.fst = ms.map Prod.fst := by
  induction ms with
  | nil => simp at h
  | cons kv rest ih =>
    obtain ⟨k0, v0⟩ := kv
    rw [List.map_cons] at h
    by_cases hk : k0 = k
    · simp [setMonth, hk]
    · rcases List.mem_cons.mp h with h0 | h0
      · exact absurd h0.symm hk
      · simp [setMonth, hk, ih h0]

theorem setMonth_months (ms : List ((Int × Nat) × MonthlyStats)) (k : Int × Nat)
    (v w : MonthlyStats) (hget : getMonth ms k = some w) (hm : v.month = w.month) :
    (setMonth ms k v).map (fun kv => kv.2.month) = ms.map (fun kv => kv.2.month) := by
  induction ms with
  | nil => simp [getMonth] at hget
  | cons kv rest ih =>
    obtain ⟨k0, v0⟩ := kv
    by_cases hk : k0 = k
    · simp only [getMonth, if_pos hk] at hget
      obtain rfl : v0 = w := by simpa using hget
      simp [setMonth, hk, hm]
    · simp only [getMonth, if_neg hk] at hget
      simp [setMonth, hk, ih hget]

theorem getMonth_setMonth_ne (ms : List ((Int × Nat) × MonthlyStats)) (k k' : Int × Nat)
    (v : MonthlyStats) (h : k' ≠ k) :
    getMonth (setMonth ms k v) k' = getMonth ms k' := by
  induction ms with
  | nil => simp [setMonth, getMonth, Ne.symm h]
  | cons kv rest ih =>
    obtain ⟨k0, v0⟩ := kv
    by_cases hk : k0 = k
    · subst hk
      simp [setMonth, getMonth, Ne.symm h]
    · simp only [setMonth, if_neg hk]
      by_cases hk' : k0 = k'
      · simp [getMonth, hk']
      · simp [getMonth, hk', ih]

theorem getMonth_mem_snd (ms : List ((Int × Nat) × MonthlyStats)) (k : Int × Nat)
    (v : MonthlyStats) (h : getMonth ms k = some v) : v ∈ ms.map Prod.snd := by
  induction ms with
  | nil => simp [getMonth] at h
  | cons kv rest ih =>
    obtain ⟨k0, v0⟩ := kv
    by_cases hk : k0 = k
    · simp only [getMonth, if_pos hk] at h
      simp [Option.some_inj.mp h]
    · simp only [getMonth, if_neg hk] at h
      simp [ih h]

/-! ### The monthly fold keeps the twelve initialized buckets -/

theorem applyEntryMonth_fst (ms : List ((Int × Nat) × MonthlyStats)) (e : TimeEntry)
    (h : (e.date.year, e.date.month) ∈ ms.map Prod.fst) :
    (applyEntryMonth ms e).map Prod.fst = ms.map Prod.fst :=
  setMonth_fst ms _ _ h

theorem applyEntryMonth_months (ms : List ((Int × Nat) × MonthlyStats)) (e : TimeEntry)
    (h : (e.date.year, e.date.month) ∈ ms.map Prod.fst) :
    (applyEntryMonth ms e).map (fun kv => kv.2.month) = ms.map (fun kv => kv.2.month) := by
  obtain ⟨w, hw⟩ := getMonth_isSome_of_mem ms _ h
  exact setMonth_months ms _ _ w hw (by simp [entryMonthRecord, entryMonthBase, hw])

theorem applyEntryMonth_get_ne (ms : List ((Int × Nat) × MonthlyStats)) (e : TimeEntry)
    (k : Int × Nat) (h : (e.date.year, e.date.month) ≠ k) :
    getMonth (applyEntryMonth ms e) k = getMonth ms k :=
  getMonth_setMonth_ne ms _ k _ (fun hh => h hh.symm)

theorem foldl_applyEntryMonth_keys (es : List TimeEntry) :
    ∀ ms : List ((Int × Nat) × MonthlyStats),
      (∀ e ∈ es, (e.date.year, e.date.month) ∈ ms.map Prod.fst) →
      (es.foldl applyEntryMonth ms).map Prod.fst = ms.map Prod.fst ∧
      (es.foldl applyEntryMonth ms).map (fun kv => kv.2.month) = ms.map (fun kv => kv.2.month) := by
  induction es with
  | nil => intro ms _; exact ⟨rfl, rfl⟩
  | cons e es ih =>
    intro ms h
    have hmem := h e (List.mem_cons_self e es)
    have hfst := applyEntryMonth_fst ms e hmem
    have hmon := applyEntryMonth_months ms e hmem
    have ih' := ih (applyEntryMonth ms e)
      (fun x hx => by rw [hfst]; exact h x (List.mem_cons_of_mem e hx))
    exact ⟨(List.foldl_cons .. ▸ ih'.1).trans hfst, (List.foldl_cons .. ▸ ih'.2).trans hmon⟩

theorem foldl_applyEntryMonth_get_ne (es : List TimeEntry) (k : Int × Nat) :
    ∀ ms : List ((Int × Nat) × MonthlyStats),
      (∀ e ∈ es, (e.date.year, e.date.month) ≠ k) →
      getMonth (es.foldl applyEntryMonth ms) k = getMonth ms k := by
  induction es with
  | nil => intro ms _; rfl
  | cons e es ih =>
    intro ms h
    rw [List.foldl_cons, ih _ (fun x hx => h x (List.mem_cons_of_mem e hx)),
      applyEntryMonth_get_ne ms e k (h e (List.mem_cons_self e es))]

theorem initMonthly_mem_fst (year : Int) (m : Nat) (h1 : 1 ≤ m) (h2 : m ≤ 12) :
    (year, m) ∈ (initMonthly year).map Prod.fst := by
  interval_cases m <;> simp [initMonthly]

theorem getMonth_initMonthly (year : Int) (m : Nat) (h1 : 1 ≤ m) (h2 : m ≤ 12) :
    getMonth (initMonthly year) (year, m) =
      some ⟨monthNames.getD (m - 1) "undefined", some 0, []⟩ := by
  interval_cases m <;> simp [initMonthly, getMonth, monthNames]

theorem initMonthly_months (year : Int) :
    (initMonthly year).map (fun kv => kv.2.month) = monthNames := rfl

theorem initMonthly_length (year : Int) : (initMonthly year).length = 12 := rfl

theorem foldl_cond_sum_flip {α : Type} (c : α → Bool) (f : α → ℚ) (l : List α) :
    ∀ a : ℚ, l.foldl (fun x p => if c p then x else x + f p) a =
      a + ((l.filter (fun p => !c p)).map f).sum := by
  induction l with
  | nil => intro a; simp
  | cons p l ih =>
    intro a
    rw [List.foldl_cons]
    by_cases hc : c p
    · rw [if_pos hc, List.filter_cons_of_neg (by simp [hc]), ih]
    · rw [if_neg hc, List.filter_cons_of_pos (by simp [hc]), List.map_cons, List.sum_cons,
        ih (a + f p)]
      ring

theorem billableHoursAcc_eq (ps : List Project) :
    billableHoursAcc ps = ((ps.filter isBillable).map Project.hoursAllocated).sum := by
  unfold billableHoursAcc
  rw [foldl_cond_sum isBillable Project.hoursAllocated ps 0, zero_add]

theorem nonBillableHoursAcc_eq (ps : List Project) :
    nonBillableHoursAcc ps =
      ((ps.filter (fun p => !isBillable p)).map Project.hoursAllocated).sum := by
  unfold nonBillableHoursAcc
  rw [foldl_cond_sum_flip isBillable Project.hoursAllocated ps 0, zero_add]

/-! ### Invariants of the per-project records -/

/-- Per-record consequence of the accumulation discipline: revenue comes
from billable hours only, and total splits into billable plus
non-billable. -/

theorem projInv_freshStats (rate : ℚ) (n : String) : projInv rate (freshStats n) := by
  constructor <;> simp [freshStats]

theorem projInv_updateStats (rate : ℚ) (s : YearlyProjectStats) (p : Project)
    (h : projInv rate s) : projInv rate (updateStats s p rate) := by
  obtain ⟨h1, h2⟩ := h
  unfold updateStats
  by_cases hb : isBillable p
  · rw [if_pos hb]
    refine ⟨?_, ?_⟩
    · show s.revenue + p.hoursAllocated * rate = (s.billableHours + p.hoursAllocated) * rate
      rw [h1]; ring
    · show s.totalHours + p.hoursAllocated =
        (s.billableHours + p.hoursAllocated) + s.nonBillableHours
      rw [h2]; ring
  · rw [if_neg hb]
    refine ⟨h1, ?_⟩
    show s.totalHours + p.hoursAllocated =
      s.billableHours + (s.nonBillableHours + p.hoursAllocated)
    rw [h2]; ring

theorem projInv_upsert (rate : ℚ) (p : Project) :
    ∀ acc : List YearlyProjectStats, (∀ s ∈ acc, projInv rate s) →
      ∀ s ∈ upsertProject acc p rate, projInv rate s := by
  intro acc
  induction acc with
  | nil =>
    intro _ s hs
    simp only [upsertProject, List.mem_singleton] at hs
    subst hs
    exact projInv_updateStats rate _ p (projInv_freshStats rate _)
  | cons s0 rest ih =>
    intro h s hs
    by_cases hn : s0.name = p.name
    · simp only [upsertProject, if_pos hn] at hs
      rcases List.mem_cons.mp hs with rfl | hmem
      · exact projInv_updateStats rate s0 p (h s0 (List.mem_cons_self s0 rest))
      · exact h s (List.mem_cons_of_mem _ hmem)
    · simp only [upsertProject, if_neg hn] at hs
      rcases List.mem_cons.mp hs with rfl | hmem
      · exact h s (List.mem_cons_self s rest)
      · exact ih (fun x hx => h x (List.mem_cons_of_mem _ hx)) s hmem

theorem projInv_foldl (rate : ℚ) (ps : List Project) :
    ∀ acc, (∀ s ∈ acc, projInv rate s) →
      ∀ s ∈ ps.foldl (fun a p => upsertProject a p rate) acc, projInv rate s := by
  induction ps with
  | nil => intro acc h s hs; exact h s hs
  | cons p ps ih =>
    intro acc h s hs
    rw [List.foldl_cons] at hs
    exact ih _ (projInv_upsert rate p acc h) s hs

theorem projInv_projectStatsAcc (rate : ℚ) (ps : List Project) :
    ∀ s ∈ projectStatsAcc ps rate, projInv rate s :=
  projInv_foldl rate ps [] (by simp)

theorem projInv_withPercentages (rate : ℚ) (stats : List YearlyProjectStats) (t : JsNum)
    (h : ∀ s ∈ stats, projInv rate s) :
    ∀ s ∈ withPercentages stats t, projInv rate s := by
  intro s hs
  obtain ⟨s0, hs0, rfl⟩ := List.mem_map.mp hs
  exact h s0 hs0

/-- Membership in the sorted `topProjects` is membership in the
percentage-annotated stats list. -/

theorem mem_insertionSort_proj (l : List YearlyProjectStats) (s : YearlyProjectStats) :
    s ∈ List.insertionSort projBefore l ↔ s ∈ l :=
  (List.perm_insertionSort projBefore l).mem_iff



/-! ### The extended-milestones store variant

The repository also ships a variant of the same store whose milestone
section is much longer.  In that variant the milestone block is evaluated
before the `const` declarations of `averageDailyHours` and
`coffeeEquivalent`; reading a `const` binding before its declaration is a
temporal-dead-zone access and throws a `ReferenceError` in JavaScript.
The two bindings are therefore passed to the milestone computation as
`Option ℚ` with `none` meaning "still in the temporal dead zone", and the
whole variant returns `Except String (Option YearlyStatistics)`. -/

theorem milestonesV2_tdz_error (numEntries : Nat) (yearEntries : List TimeEntry) (year : Int)
    (totalJ : JsNum) (billable : ℚ) (streak wdays otDays : Nat) (totalOT : ℚ)
    (coffee : Option ℚ) :
    milestonesV2 numEntries yearEntries year totalJ billable streak wdays otDays totalOT
      none coffee =
      Except.error "ReferenceError: Cannot access averageDailyHours before initialization" := rfl



/-! ### Projections of the report -/

theorem calc_some_elim {entries : List TimeEntry} {year : Int} {rate workDay : ℚ}
    {r : YearlyStatistics}
    (h : calculateYearlyStatistics entries year rate workDay = some r) :
    yearFilter entries year ≠ [] ∧
      r = buildReport (yearFilter entries year) year rate workDay := by
  by_cases hne : yearFilter entries year = []
  · rw [(calc_isNone_iff entries year rate workDay).mpr hne] at h
    exact absurd h (by simp)
  · rw [calc_eq_some entries year rate workDay hne] at h
    exact ⟨hne, (Option.some.inj h).symm⟩

theorem buildReport_longestStreak (ye : List TimeEntry) (year : Int) (rate workDay : ℚ) :
    (buildReport ye year rate workDay).longestStreak = longestStreakOf ye := rfl

theorem buildReport_workingDays (ye : List TimeEntry) (year : Int) (rate workDay : ℚ) :
    (buildReport ye year rate workDay).workingDays = ye.length := rfl

theorem buildReport_totalHours (ye : List TimeEntry) (year : Int) (rate workDay : ℚ) :
    (buildReport ye year rate workDay).totalHours = jsRound2 (totalHoursSum ye) := rfl

theorem buildReport_billableHours (ye : List TimeEntry) (year : Int) (rate workDay : ℚ) :
    (buildReport ye year rate workDay).billableHours =
      round2q (billableHoursAcc (allAllocations ye)) := rfl

theorem buildReport_nonBillableHours (ye : List TimeEntry) (year : Int) (rate workDay : ℚ) :
    (buildReport ye year rate workDay).nonBillableHours =
      round2q (nonBillableHoursAcc (allAllocations ye)) := rfl

theorem buildReport_totalRevenue (ye : List TimeEntry) (year : Int) (rate workDay : ℚ) :
    (buildReport ye year rate workDay).totalRevenue =
      ((round (billableHoursAcc (allAllocations ye) * rate) : ℤ) : ℚ) := rfl

theorem buildReport_topProjects (ye : List TimeEntry) (year : Int) (rate workDay : ℚ) :
    (buildReport ye year rate workDay).topProjects =
      List.insertionSort projBefore
        (withPercentages (projectStatsAcc (allAllocations ye) rate) (totalHoursSum ye)) := rfl

theorem buildReport_monthlyBreakdown (ye : List TimeEntry) (year : Int) (rate workDay : ℚ) :
    (buildReport ye year rate workDay).monthlyBreakdown =
      (monthlyStatsOf year ye).map Prod.snd := rfl

theorem buildReport_averageDailyHours (ye : List TimeEntry) (year : Int) (rate workDay : ℚ) :
    (buildReport ye year rate workDay).averageDailyHours =
      jsRound2 (if 0 < ye.length then jsDiv (totalHoursSum ye) (some (ye.length : ℚ))
        else some 0) := rfl

theorem buildReport_totalOvertimeHours (ye : List TimeEntry) (year : Int) (rate workDay : ℚ) :
    (buildReport ye year rate workDay).totalOvertimeHours =
      round2q (totalOvertimeHoursAcc ye workDay) := rfl

theorem buildReport_averageOvertimeHours (ye : List TimeEntry) (year : Int) (rate workDay : ℚ) :
    (buildReport ye year rate workDay).averageOvertimeHours =
      round2q (if 0 < overtimeDaysAcc ye workDay then
        totalOvertimeHoursAcc ye workDay / (overtimeDaysAcc ye workDay : ℚ) else 0) := rfl

theorem buildReport_overtimePercentage (ye : List TimeEntry) (year : Int) (rate workDay : ℚ) :
    (buildReport ye year rate workDay).overtimePercentage =
      jsRound2 (if jsGt (totalHoursSum ye) (some 0) then
        jsMul (jsDiv (some (totalOvertimeHoursAcc ye workDay)) (totalHoursSum ye)) (some 100)
        else some 0) := rfl

/-! ### C1 -/

/-- C1: `calculateYearlyStatistics` returns `null` exactly when no
entry's calendar year equals the requested year; equivalently, whenever
at least one entry matches, the result is a non-null report, and no
partial report is ever produced for an empty match set. -/

theorem C1_null_iff_no_match (entries : List TimeEntry) (year : Int) (rate workDay : ℚ) :
    calculateYearlyStatistics entries year rate workDay = none ↔
      ∀ e ∈ entries, e.date.year ≠ year := by
  rw [calc_isNone_iff]
  unfold yearFilter
  rw [List.filter_eq_nil_iff]
  simp

/-! ### C2 -/

/-- C2: in the extended-milestones variant the milestone block reads
`averageDailyHours` (and later `coffeeEquivalent`) before their `const`
declarations, so as soon as at least one entry falls in the requested
year the computation throws a `ReferenceError` instead of returning a
report. -/

theorem C2_v2_always_throws (entries : List TimeEntry) (year : Int) (rate workDay : ℚ)
    (h : yearFilter entries year ≠ []) :
    calculateYearlyStatisticsV2 entries year rate workDay =
      Except.error "ReferenceError: Cannot access averageDailyHours before initialization" := by
  unfold calculateYearlyStatisticsV2
  rw [if_neg (by simpa [List.length_eq_zero] using h), milestonesV2_tdz_error]
  rfl

/-! ### C5 -/

/-- C5 (amended): the source's streak walks the sorted entry list
without removing duplicate dates (a zero-day gap resets the run), so the
spec's distinct-dates streak is obtained exactly when the filtered
entries' dates are pairwise distinct; the claim's own example
2024-01-01/01-02/01-04 then yields longestStreak 2.  With duplicated
dates the two sides differ (see the counterexample). -/

theorem C5_streak_eq_spec_of_distinct (entries : List TimeEntry) (year : Int)
    (rate workDay : ℚ)
    (hnd : ((yearFilter entries year).map daysOf).Nodup) :
    ∀ r, calculateYearlyStatistics entries year rate workDay = some r →
      r.longestStreak = specLongestStreak (yearFilter entries year) := by
  intro r hr
  obtain ⟨hne, rfl⟩ := calc_some_elim hr
  rw [buildReport_longestStreak]
  exact longestStreak_eq_spec _ hnd

theorem totalHoursSum_pos (es : List TimeEntry)
    (hall : ∀ e ∈ es, ∃ q, e.totalHours = some q ∧ 0 ≤ q)
    (hpos : ∃ e ∈ es, ∃ q, e.totalHours = some q ∧ 0 < q) :
    ∃ t, totalHoursSum es = some t ∧ 0 < t := by
  have hsome : ∀ e ∈ es, e.totalHours.isSome := by
    intro e he
    obtain ⟨q, hq, _⟩ := hall e he
    simp [hq]
  refine ⟨(es.map (fun e => e.totalHours.getD 0)).sum, totalHoursSum_eq_sum es hsome, ?_⟩
  obtain ⟨e, he, q, hq, hqpos⟩ := hpos
  have hmem : q ∈ es.map (fun e => e.totalHours.getD 0) :=
    List.mem_map.mpr ⟨e, he, by simp [hq]⟩
  have hle : q ≤ (es.map (fun e => e.totalHours.getD 0)).sum := by
    apply List.single_le_sum _ _ hmem
    intro x hx
    obtain ⟨e', he', hx'⟩ := List.mem_map.mp hx
    obtain ⟨q', hq', hq'nn⟩ := hall e' he'
    rw [← hx', hq']
    simpa using hq'nn
  linarith

/-! ### C3 -/

/-- C3 (amended): the divisor of every percentage-of-year division is the
yearly `totalHours` sum; it is finite and positive — so every division in
the non-null result is a genuine finite division — provided each filtered
entry carries a finite non-negative `totalHours` and at least one is
positive.  (As literally stated the claim is false: a non-empty year
whose entries all have `totalHours` 0 has a zero divisor, see the
counterexample.) -/

theorem C3_percentage_divisor (entries : List TimeEntry) (year : Int) (rate workDay : ℚ)
    (hall : ∀ e ∈ yearFilter entries year, ∃ q, e.totalHours = some q ∧ 0 ≤ q)
    (hpos : ∃ e ∈ yearFilter entries year, ∃ q, e.totalHours = some q ∧ 0 < q) :
    ∃ t : ℚ, totalHoursSum (yearFilter entries year) = some t ∧ 0 < t ∧
      ∀ r, calculateYearlyStatistics entries year rate workDay = some r →
        ∀ s ∈ r.topProjects, s.percentage = some (s.totalHours / t * 100) := by
  obtain ⟨t, ht, htpos⟩ := totalHoursSum_pos _ hall hpos
  refine ⟨t, ht, htpos, ?_⟩
  intro r hr s hs
  obtain ⟨hne, rfl⟩ := calc_some_elim hr
  rw [buildReport_topProjects, mem_insertionSort_proj] at hs
  unfold withPercentages at hs
  obtain ⟨s0, _, rfl⟩ := List.mem_map.mp hs
  show jsMul (jsDiv (some s0.totalHours) (totalHoursSum (yearFilter entries year))) (some 100) =
    some (s0.totalHours / t * 100)
  rw [ht]
  simp [jsDiv, jsMul, htpos.ne']

/-! ### C4 -/

/-- C4 (amended): of the scalar outputs, `billableHours`,
`nonBillableHours`, `totalHours`, `averageDailyHours`,
`totalOvertimeHours`, `averageOvertimeHours` and `overtimePercentage`
are rounded to exactly 2 decimal places, but `totalRevenue` is rounded
to the nearest integer (0 decimals), and the `topProjects` entries
(their `totalHours`, `revenue`, `percentage`) are not rounded at all —
see the counterexample for the two deviations. -/

theorem C4_output_rounding (entries : List TimeEntry) (year : Int) (rate workDay : ℚ)
    (hall : ∀ e ∈ yearFilter entries year, e.totalHours.isSome) :
    ∀ r, calculateYearlyStatistics entries year rate workDay = some r →
      isTwoDecimal r.billableHours ∧ isTwoDecimal r.nonBillableHours ∧
      (∃ n : ℤ, r.totalRevenue = (n : ℚ)) ∧
      isTwoDecimal r.totalOvertimeHours ∧ isTwoDecimal r.averageOvertimeHours ∧
      (∃ t, r.totalHours = some t ∧ isTwoDecimal t) ∧
      (∃ a, r.averageDailyHours = some a ∧ isTwoDecimal a) ∧
      (∃ p, r.overtimePercentage = some p ∧ isTwoDecimal p) := by
  intro r hr
  obtain ⟨hne, rfl⟩ := calc_some_elim hr
  have hlen : 0 < (yearFilter entries year).length := List.length_pos.mpr hne
  have hsum := totalHoursSum_eq_sum _ hall
  refine ⟨?_, ?_, ?_, ?_, ?_, ?_, ?_, ?_⟩
  · rw [buildReport_billableHours]; exact twoDecimal_round2q _
  · rw [buildReport_nonBillableHours]; exact twoDecimal_round2q _
  · exact ⟨_, buildReport_totalRevenue _ _ _ _⟩
  · rw [buildReport_totalOvertimeHours]; exact twoDecimal_round2q _
  · rw [buildReport_averageOvertimeHours]; exact twoDecimal_round2q _
  · rw [buildReport_totalHours, hsum]
    exact ⟨_, rfl, twoDecimal_round2q _⟩
  · rw [buildReport_averageDailyHours, if_pos hlen, hsum]
    have hq : ((yearFilter entries year).length : ℚ) ≠ 0 :=
      Nat.cast_ne_zero.mpr (Nat.pos_iff_ne_zero.mp hlen)
    simp only [jsDiv, if_neg hq, jsRound2, Option.map_some]
    exact ⟨_, rfl, twoDecimal_round2q _⟩
  · rw [buildReport_overtimePercentage]
    by_cases hgt : jsGt (totalHoursSum (yearFilter entries year)) (some 0) = true
    · rw [if_pos hgt]
      rw [hsum] at hgt ⊢
      have hS : (List.map (fun e => e.totalHours.getD 0) (yearFilter entries year)).sum ≠ 0 := by
        have h0 : (0 : ℚ) <
            (List.map (fun e => e.totalHours.getD 0) (yearFilter entries year)).sum := by
          simpa [jsGt] using hgt
        exact h0.ne'
      simp only [jsDiv, if_neg hS, jsMul, jsRound2, Option.map_some]
      exact ⟨_, rfl, twoDecimal_round2q _⟩
    · rw [if_neg hgt]
      exact ⟨_, rfl, twoDecimal_round2q _⟩

/-! ### C6 -/

/-- C6 (amended): `workingDays` is the number of filtered entries (not
the number of distinct dates — see the counterexample); the two agree
exactly when the filtered entries' dates are pairwise distinct.
`averageDailyHours` is the yearly total divided by `workingDays`,
rounded to 2 decimals. -/

theorem C6_workingDays_and_average (entries : List TimeEntry) (year : Int) (rate workDay : ℚ)
    (hall : ∀ e ∈ yearFilter entries year, e.totalHours.isSome) :
    ∀ r, calculateYearlyStatistics entries year rate workDay = some r →
      r.workingDays = (yearFilter entries year).length ∧
      (((yearFilter entries year).map TimeEntry.date).Nodup →
        r.workingDays = ((yearFilter entries year).map TimeEntry.date).dedup.length) ∧
      r.averageDailyHours = some (round2q
        ((((yearFilter entries year).map (fun e => e.totalHours.getD 0)).sum) /
          ((yearFilter entries year).length : ℚ))) := by
  intro r hr
  obtain ⟨hne, rfl⟩ := calc_some_elim hr
  have hlen : 0 < (yearFilter entries year).length := List.length_pos.mpr hne
  refine ⟨buildReport_workingDays _ _ _ _, ?_, ?_⟩
  · intro hnd
    rw [buildReport_workingDays, List.dedup_eq_self.mpr hnd, List.length_map]
  · rw [buildReport_averageDailyHours, if_pos hlen, totalHoursSum_eq_sum _ hall]
    have hq : ((yearFilter entries year).length : ℚ) ≠ 0 :=
      Nat.cast_ne_zero.mpr (Nat.pos_iff_ne_zero.mp hlen)
    simp only [jsDiv, if_neg hq, jsRound2]
    rfl

theorem monthlyStatsOf_eq (year : Int) (es : List TimeEntry) :
    monthlyStatsOf year es = es.foldl applyEntryMonth (initMonthly year) := rfl

/-! ### C7 -/

/-- C7: for ISO dates (month between 1 and 12) the monthly breakdown of
a non-null report has exactly 12 buckets in calendar order Jan→Dec, and
every month without activity keeps its initial zero bucket (zero total,
empty per-project map). -/

theorem C7_monthly_breakdown (entries : List TimeEntry) (year : Int) (rate workDay : ℚ)
    (hv : ∀ e ∈ yearFilter entries year, 1 ≤ e.date.month ∧ e.date.month ≤ 12) :
    ∀ r, calculateYearlyStatistics entries year rate workDay = some r →
      r.monthlyBreakdown.length = 12 ∧
      r.monthlyBreakdown.map MonthlyStats.month = monthNames ∧
      ∀ m, 1 ≤ m → m ≤ 12 →
        (∀ e ∈ yearFilter entries year, e.date.month ≠ m) →
        (⟨monthNames.getD (m - 1) "undefined", some 0, []⟩ : MonthlyStats) ∈
          r.monthlyBreakdown := by
  intro r hr
  obtain ⟨hne, rfl⟩ := calc_some_elim hr
  have hyear : ∀ e ∈ yearFilter entries year, e.date.year = year := by
    intro e he
    have := List.of_mem_filter he
    simpa using this
  have hkeys : ∀ e ∈ yearFilter entries year,
      (e.date.year, e.date.month) ∈ (initMonthly year).map Prod.fst := by
    intro e he
    rw [hyear e he]
    exact initMonthly_mem_fst year _ (hv e he).1 (hv e he).2
  obtain ⟨hfst, hmonths⟩ :=
    foldl_applyEntryMonth_keys (yearFilter entries year) (initMonthly year) hkeys
  rw [buildReport_monthlyBreakdown, monthlyStatsOf_eq]
  refine ⟨?_, ?_, ?_⟩
  · have h12 := congrArg List.length hfst
    rw [List.length_map, List.length_map, initMonthly_length] at h12
    rw [List.length_map, h12]
  · rw [List.map_map]
    have : ((yearFilter entries year).foldl applyEntryMonth (initMonthly year)).map
        (fun kv => kv.2.month) = monthNames := by
      rw [hmonths, initMonthly_months]
    simpa [Function.comp] using this
  · intro m h1 h2 hnone
    have hget : getMonth ((yearFilter entries year).foldl applyEntryMonth (initMonthly year))
        (year, m) = some ⟨monthNames.getD (m - 1) "undefined", some 0, []⟩ := by
      rw [foldl_applyEntryMonth_get_ne _ _ _ ?_]
      · exact getMonth_initMonthly year m h1 h2
      · intro e he hk
        exact hnone e he (by simpa using congrArg Prod.snd hk)
    exact getMonth_mem_snd _ _ _ hget

/-! ### C9 -/

/-- C9: an allocation flagged `billable:false` contributes to the
non-billable totals and to its project's total hours but never to
revenue or billable hours: the global `billableHours`,
`nonBillableHours` and `totalRevenue` are exactly the (rounded)
billable/non-billable sums, revenue is the billable sum times the rate,
and inside every `topProjects` record revenue equals `billableHours ×
rate` while `totalHours = billableHours + nonBillableHours`. -/

theorem C9_nonbillable_exclusion (entries : List TimeEntry) (year : Int) (rate workDay : ℚ) :
    ∀ r, calculateYearlyStatistics entries year rate workDay = some r →
      r.billableHours = round2q
        ((((allAllocations (yearFilter entries year)).filter isBillable).map
          Project.hoursAllocated).sum) ∧
      r.nonBillableHours = round2q
        ((((allAllocations (yearFilter entries year)).filter (fun p => !isBillable p)).map
          Project.hoursAllocated).sum) ∧
      r.totalRevenue = ((round
        (((((allAllocations (yearFilter entries year)).filter isBillable).map
          Project.hoursAllocated).sum) * rate) : ℤ) : ℚ) ∧
      ∀ s ∈ r.topProjects, s.revenue = s.billableHours * rate ∧
        s.totalHours = s.billableHours + s.nonBillableHours := by
  intro r hr
  obtain ⟨hne, rfl⟩ := calc_some_elim hr
  refine ⟨?_, ?_, ?_, ?_⟩
  · rw [buildReport_billableHours, billableHoursAcc_eq]
  · rw [buildReport_nonBillableHours, nonBillableHoursAcc_eq]
  · rw [buildReport_totalRevenue, billableHoursAcc_eq]
  · intro s hs
    rw [buildReport_topProjects, mem_insertionSort_proj] at hs
    exact projInv_withPercentages rate _ _
      (projInv_projectStatsAcc rate (allAllocations (yearFilter entries year))) s hs

/-! ### C10 -/

/-- C10: `topProjects` is sorted by revenue descending with ties broken
by total hours descending (pairwise, over the whole output); and on a
concrete input with two zero-revenue projects of different hours the
higher-hours one ranks first, while two projects equal on both keys keep
their first-encounter order (C before D). -/

theorem C10_topProjects_order :
    (∀ (entries : List TimeEntry) (year : Int) (rate workDay : ℚ) r,
        calculateYearlyStatistics entries year rate workDay = some r →
        List.Sorted projBefore r.topProjects) ∧
    (calculateYearlyStatistics
        [⟨⟨2024, 6, 3⟩, some 12,
          [⟨"C", 2, some true⟩, ⟨"A", 3, some false⟩, ⟨"D", 2, some true⟩,
           ⟨"B", 5, some false⟩]⟩] 2024 750 (15/2)).map
        (fun r => r.topProjects.map YearlyProjectStats.name) =
      some ["C", "D", "B", "A"] := by
  constructor
  · intro entries year rate workDay r hr
    obtain ⟨hne, rfl⟩ := calc_some_elim hr
    rw [buildReport_topProjects]
    exact List.sorted_insertionSort projBefore _
  · norm_num [calculateYearlyStatistics, buildReport, reportCore, yearFilter, totalHoursSum,
      allAllocations, billableHoursAcc, nonBillableHoursAcc, projectStatsAcc, upsertProject,
      updateStats, freshStats, isBillable, withPercentages, jsAdd, jsMul, jsDiv, jsGt, jsLt,
      jsGe, jsRound, jsRound2, round2q, List.insertionSort, List.orderedInsert, projBefore,
      dateLe, epochDays, daysOf, longestStreakOf, streakGo, monthlyStatsOf, applyEntryMonth,
      entryMonthRecord, entryMonthBase, getMonth, setMonth, addProjectHours, initMonthly,
      monthNames, busiestMonthOf, leastBusyMonthOf, naMonth, milestonesV1,
      totalOvertimeHoursAcc, overtimeDaysAcc, entryOvertime, Int.fdiv]



/-! ### C8: default-substitution of the optional fields -/

/-- Make an absent `billable` flag explicit as its default `true`. -/

theorem fillProjBillable_name (p : Project) : (fillProjBillable p).name = p.name := by
  unfold fillProjBillable
  cases p.billable <;> rfl

theorem fillProjBillable_hours (p : Project) :
    (fillProjBillable p).hoursAllocated = p.hoursAllocated := by
  unfold fillProjBillable
  cases p.billable <;> rfl

theorem isBillable_fillProjBillable (p : Project) :
    isBillable (fillProjBillable p) = isBillable p := by
  unfold fillProjBillable isBillable
  cases hb : p.billable with
  | none => rfl
  | some b => cases b <;> simp [hb]

theorem yearFilter_map_fillBillable (entries : List TimeEntry) (year : Int) :
    yearFilter (entries.map fillBillable) year = (yearFilter entries year).map fillBillable := by
  unfold yearFilter
  rw [List.filter_map]
  congr 1

theorem yearFilter_map_fillHours (entries : List TimeEntry) (year : Int) :
    yearFilter (entries.map fillHours) year = (yearFilter entries year).map fillHours := by
  unfold yearFilter
  rw [List.filter_map]
  congr 1

theorem fillBillable_date (e : TimeEntry) : (fillBillable e).date = e.date := rfl

theorem fillBillable_totalHours (e : TimeEntry) :
    (fillBillable e).totalHours = e.totalHours := rfl

theorem fillBillable_projects (e : TimeEntry) :
    (fillBillable e).projects = e.projects.map fillProjBillable := rfl

theorem entryOvertime_fillBillable (e : TimeEntry) (wd : ℚ) :
    entryOvertime (fillBillable e) wd = entryOvertime e wd := rfl

theorem entryOvertime_fillHours (e : TimeEntry) (wd : ℚ) :
    entryOvertime (fillHours e) wd = entryOvertime e wd := rfl

theorem totalHoursSum_map_fillBillable (es : List TimeEntry) :
    totalHoursSum (es.map fillBillable) = totalHoursSum es := by
  unfold totalHoursSum
  rw [List.foldl_map]
  all_goals congr 1

theorem allAllocations_map_fillBillable (es : List TimeEntry) :
    allAllocations (es.map fillBillable) = (allAllocations es).map fillProjBillable := by
  unfold allAllocations
  rw [List.map_map, List.map_flatten, List.map_map]
  rfl

theorem billableHoursAcc_map_fill (ps : List Project) :
    billableHoursAcc (ps.map fillProjBillable) = billableHoursAcc ps := by
  unfold billableHoursAcc
  rw [List.foldl_map]
  all_goals congr 1
  all_goals funext a p
  all_goals rw [isBillable_fillProjBillable, fillProjBillable_hours]

theorem nonBillableHoursAcc_map_fill (ps : List Project) :
    nonBillableHoursAcc (ps.map fillProjBillable) = nonBillableHoursAcc ps := by
  unfold nonBillableHoursAcc
  rw [List.foldl_map]
  all_goals congr 1
  all_goals funext a p
  all_goals rw [isBillable_fillProjBillable, fillProjBillable_hours]

theorem updateStats_fill (s : YearlyProjectStats) (p : Project) (rate : ℚ) :
    updateStats s (fillProjBillable p) rate = updateStats s p rate := by
  unfold updateStats
  rw [isBillable_fillProjBillable, fillProjBillable_hours]

theorem upsertProject_fill (p : Project) (rate : ℚ) :
    ∀ acc, upsertProject acc (fillProjBillable p) rate = upsertProject acc p rate := by
  intro acc
  induction acc with
  | nil =>
    simp only [upsertProject]
    rw [updateStats_fill, fillProjBillable_name]
  | cons s rest ih =>
    simp only [upsertProject]
    rw [fillProjBillable_name, updateStats_fill, ih]

theorem projectStatsAcc_map_fill (ps : List Project) (rate : ℚ) :
    projectStatsAcc (ps.map fillProjBillable) rate = projectStatsAcc ps rate := by
  unfold projectStatsAcc
  rw [List.foldl_map]
  congr 1
  funext acc p
  exact upsertProject_fill p rate acc

theorem totalOvertimeHoursAcc_map_fillBillable (es : List TimeEntry) (wd : ℚ) :
    totalOvertimeHoursAcc (es.map fillBillable) wd = totalOvertimeHoursAcc es wd := by
  unfold totalOvertimeHoursAcc
  rw [List.foldl_map]
  all_goals congr 1

theorem overtimeDaysAcc_map_fillBillable (es : List TimeEntry) (wd : ℚ) :
    overtimeDaysAcc (es.map fillBillable) wd = overtimeDaysAcc es wd := by
  unfold overtimeDaysAcc
  rw [List.foldl_map]
  all_goals congr 1

theorem addProjectHours_foldl_fill (ps : List Project) (ph : List (String × ℚ)) :
    (ps.map fillProjBillable).foldl
        (fun a p => addProjectHours a p.name p.hoursAllocated) ph =
      ps.foldl (fun a p => addProjectHours a p.name p.hoursAllocated) ph := by
  rw [List.foldl_map]
  all_goals congr 1
  all_goals funext a p
  all_goals rw [fillProjBillable_name, fillProjBillable_hours]

theorem entryMonthBase_fillBillable (ms : List ((Int × Nat) × MonthlyStats)) (e : TimeEntry) :
    entryMonthBase ms (fillBillable e) = entryMonthBase ms e := by
  unfold entryMonthBase
  rw [fillBillable_date]

theorem entryMonthRecord_fillBillable (ms : List ((Int × Nat) × MonthlyStats)) (e : TimeEntry) :
    entryMonthRecord ms (fillBillable e) = entryMonthRecord ms e := by
  unfold entryMonthRecord
  rw [entryMonthBase_fillBillable, fillBillable_totalHours, fillBillable_projects,
    addProjectHours_foldl_fill]

theorem applyEntryMonth_fillBillable (ms : List ((Int × Nat) × MonthlyStats)) (e : TimeEntry) :
    applyEntryMonth ms (fillBillable e) = applyEntryMonth ms e := by
  unfold applyEntryMonth
  rw [entryMonthRecord_fillBillable, fillBillable_date]

theorem monthlyStatsOf_map_fillBillable (year : Int) (es : List TimeEntry) :
    monthlyStatsOf year (es.map fillBillable) = monthlyStatsOf year es := by
  unfold monthlyStatsOf
  rw [List.foldl_map]
  congr 1
  funext ms e
  exact applyEntryMonth_fillBillable ms e

theorem longestStreakOf_map_fillBillable (es : List TimeEntry) :
    longestStreakOf (es.map fillBillable) = longestStreakOf es := by
  unfold longestStreakOf
  rw [map_daysOf_insertionSort, map_daysOf_insertionSort, List.map_map]
  congr 2

theorem buildReport_map_fillBillable (ye : List TimeEntry) (year : Int) (rate wd : ℚ) :
    buildReport (ye.map fillBillable) year rate wd = buildReport ye year rate wd := by
  unfold buildReport reportCore
  simp only [totalHoursSum_map_fillBillable, allAllocations_map_fillBillable,
    billableHoursAcc_map_fill, nonBillableHoursAcc_map_fill,
    totalOvertimeHoursAcc_map_fillBillable, overtimeDaysAcc_map_fillBillable,
    projectStatsAcc_map_fill, monthlyStatsOf_map_fillBillable,
    longestStreakOf_map_fillBillable, List.length_map]

theorem buildReport_overtimeDays (ye : List TimeEntry) (year : Int) (rate workDay : ℚ) :
    (buildReport ye year rate workDay).overtimeDays = overtimeDaysAcc ye workDay := rfl

theorem totalOvertimeHoursAcc_map_fillHours (es : List TimeEntry) (wd : ℚ) :
    totalOvertimeHoursAcc (es.map fillHours) wd = totalOvertimeHoursAcc es wd := by
  unfold totalOvertimeHoursAcc
  rw [List.foldl_map]
  all_goals congr 1

theorem overtimeDaysAcc_map_fillHours (es : List TimeEntry) (wd : ℚ) :
    overtimeDaysAcc (es.map fillHours) wd = overtimeDaysAcc es wd := by
  unfold overtimeDaysAcc
  rw [List.foldl_map]
  all_goals congr 1

/-- C8 (amended): a missing `billable` flag is equivalent to `true`
throughout the whole computation (replacing it changes nothing in the
report), and a missing `totalHours` is defaulted to 0 only inside the
overtime accumulation (replacing it by 0 leaves all three overtime
outputs unchanged); but — contrary to the claim — it is NOT defaulted in
the yearly total: one missing `totalHours` in the year makes the
reported `totalHours` non-finite (NaN).  Nothing throws: the computation
is total. -/

theorem C8_optional_field_defaults :
    (∀ (entries : List TimeEntry) (year : Int) (rate workDay : ℚ),
        calculateYearlyStatistics (entries.map fillBillable) year rate workDay =
          calculateYearlyStatistics entries year rate workDay) ∧
    (∀ (entries : List TimeEntry) (year : Int) (rate workDay : ℚ),
        (calculateYearlyStatistics (entries.map fillHours) year rate workDay).map
            (fun r => (r.totalOvertimeHours, r.overtimeDays, r.averageOvertimeHours)) =
          (calculateYearlyStatistics entries year rate workDay).map
            (fun r => (r.totalOvertimeHours, r.overtimeDays, r.averageOvertimeHours))) ∧
    (∀ (entries : List TimeEntry) (year : Int) (rate workDay : ℚ),
        (∃ e ∈ yearFilter entries year, e.totalHours = none) →
          (calculateYearlyStatistics entries year rate workDay).map
            YearlyStatistics.totalHours = some none) := by
  refine ⟨?_, ?_, ?_⟩
  · intro entries year rate workDay
    unfold calculateYearlyStatistics
    simp only [yearFilter_map_fillBillable, List.length_map]
    by_cases h0 : (yearFilter entries year).length = 0
    · rw [if_pos h0, if_pos h0]
    · rw [if_neg h0, if_neg h0, buildReport_map_fillBillable]
  · intro entries year rate workDay
    unfold calculateYearlyStatistics
    simp only [yearFilter_map_fillHours, List.length_map]
    by_cases h0 : (yearFilter entries year).length = 0
    · rw [if_pos h0, if_pos h0]
    · rw [if_neg h0, if_neg h0]
      simp only [Option.map_some']
      rw [buildReport_totalOvertimeHours, buildReport_totalOvertimeHours,
        buildReport_overtimeDays, buildReport_overtimeDays,
        buildReport_averageOvertimeHours, buildReport_averageOvertimeHours,
        totalOvertimeHoursAcc_map_fillHours, overtimeDaysAcc_map_fillHours]
  · intro entries year rate workDay h
    obtain ⟨e, he, hnone⟩ := h
    have hne : yearFilter entries year ≠ [] := List.ne_nil_of_mem he
    rw [calc_eq_some entries year rate workDay hne]
    simp only [Option.map_some']
    rw [buildReport_totalHours]
    unfold totalHoursSum
    rw [foldl_jsAdd_isNone _ ⟨e, he, hnone⟩]
    rfl




/-! ### Concrete counterexamples and witnesses -/

/-- Witness for C2 at the failing input: a single entry on 2024-03-01
makes the extended-milestones variant throw instead of reporting. -/

theorem C2_witness :
    calculateYearlyStatisticsV2 [⟨⟨2024, 3, 1⟩, some 8, [⟨"A", 8, some true⟩]⟩]
        2024 750 (15/2) =
      Except.error "ReferenceError: Cannot access averageDailyHours before initialization" :=
  C2_v2_always_throws _ 2024 750 (15/2) (by decide)

/-- C3 counterexample: one 2024 entry with `totalHours` 0 — the report is
non-null yet the percentage divisor (the yearly total) is zero, and the
computed project percentage is non-finite. -/

theorem C3_counterexample :
    (calculateYearlyStatistics [⟨⟨2024, 3, 1⟩, some 0, [⟨"A", 0, none⟩]⟩]
        2024 750 (15/2)).isSome = true ∧
    totalHoursSum (yearFilter [⟨⟨2024, 3, 1⟩, some 0, [⟨"A", 0, none⟩]⟩] 2024) = some 0 ∧
    (calculateYearlyStatistics [⟨⟨2024, 3, 1⟩, some 0, [⟨"A", 0, none⟩]⟩]
        2024 750 (15/2)).map
      (fun r => r.topProjects.map YearlyProjectStats.percentage) = some [none] := by
  refine ⟨by decide, ?_, ?_⟩ <;>
    norm_num [calculateYearlyStatistics, buildReport, reportCore, yearFilter, totalHoursSum,
      allAllocations, billableHoursAcc, nonBillableHoursAcc, projectStatsAcc, upsertProject,
      updateStats, freshStats, isBillable, withPercentages, jsAdd, jsMul, jsDiv, jsGt, jsLt,
      jsGe, jsRound, jsRound2, round2q, List.insertionSort, List.orderedInsert, projBefore,
      dateLe, epochDays, daysOf, longestStreakOf, streakGo, monthlyStatsOf, applyEntryMonth,
      entryMonthRecord, entryMonthBase, getMonth, setMonth, addProjectHours, initMonthly,
      monthNames, busiestMonthOf, leastBusyMonthOf, naMonth, milestonesV1,
      totalOvertimeHoursAcc, overtimeDaysAcc, entryOvertime, max_def, round_eq, Int.fdiv]

/-- Witness for C3: a single ordinary 8-hour entry. -/

theorem C3_witness :
    ∃ t : ℚ,
      totalHoursSum (yearFilter [⟨⟨2024, 3, 5⟩, some 8, [⟨"A", 8, some true⟩]⟩] 2024) =
        some t ∧ 0 < t ∧
      ∀ r, calculateYearlyStatistics [⟨⟨2024, 3, 5⟩, some 8, [⟨"A", 8, some true⟩]⟩]
          2024 750 (15/2) = some r →
        ∀ s ∈ r.topProjects, s.percentage = some (s.totalHours / t * 100) :=
  C3_percentage_divisor _ 2024 750 (15/2)
    (by
      intro e he
      rw [show yearFilter [⟨⟨2024, 3, 5⟩, some 8, [⟨"A", 8, some true⟩]⟩] 2024 =
          [⟨⟨2024, 3, 5⟩, some 8, [⟨"A", 8, some true⟩]⟩] from rfl] at he
      rcases List.mem_singleton.mp he with rfl
      exact ⟨8, rfl, by norm_num⟩)
    ⟨⟨⟨2024, 3, 5⟩, some 8, [⟨"A", 8, some true⟩]⟩, by decide, 8, rfl, by norm_num⟩

/-- C4 counterexample: a `topProjects` revenue of 0.075 is not a
2-decimal value (it is not fixed by 2-decimal rounding), and
`totalRevenue` is rounded to the nearest integer (4) instead of to two
decimals (3.75). -/

theorem C4_counterexample :
    ((calculateYearlyStatistics [⟨⟨2024, 3, 1⟩, some 8, [⟨"A", 1/10000, some true⟩]⟩]
        2024 750 (15/2)).map
      (fun r => r.topProjects.map YearlyProjectStats.revenue) = some [3/40] ∧
      ¬ isTwoDecimal (3/40)) ∧
    ((calculateYearlyStatistics [⟨⟨2024, 3, 1⟩, some 8, [⟨"A", 1/200, some true⟩]⟩]
        2024 750 (15/2)).map YearlyStatistics.totalRevenue = some 4 ∧
      round2q ((1/200) * 750) = 15/4 ∧ ((4 : ℚ) ≠ 15/4)) := by
  refine ⟨⟨?_, ?_⟩, ?_, ?_, by norm_num⟩ <;>
    norm_num [isTwoDecimal, calculateYearlyStatistics, buildReport, reportCore, yearFilter, totalHoursSum,
      allAllocations, billableHoursAcc, nonBillableHoursAcc, projectStatsAcc, upsertProject,
      updateStats, freshStats, isBillable, withPercentages, jsAdd, jsMul, jsDiv, jsGt, jsLt,
      jsGe, jsRound, jsRound2, round2q, List.insertionSort, List.orderedInsert, projBefore,
      dateLe, epochDays, daysOf, longestStreakOf, streakGo, monthlyStatsOf, applyEntryMonth,
      entryMonthRecord, entryMonthBase, getMonth, setMonth, addProjectHours, initMonthly,
      monthNames, busiestMonthOf, leastBusyMonthOf, naMonth, milestonesV1,
      totalOvertimeHoursAcc, overtimeDaysAcc, entryOvertime, max_def, round_eq, Int.fdiv]

/-- Witness for C4: the amended rounding discipline at a single ordinary
entry. -/

theorem C4_witness :
    isTwoDecimal (buildReport (yearFilter
        [⟨⟨2024, 3, 1⟩, some 8, [⟨"A", 1/200, some true⟩]⟩] 2024)
        2024 750 (15/2)).billableHours ∧
    isTwoDecimal (buildReport (yearFilter
        [⟨⟨2024, 3, 1⟩, some 8, [⟨"A", 1/200, some true⟩]⟩] 2024)
        2024 750 (15/2)).nonBillableHours ∧
    (∃ n : ℤ, (buildReport (yearFilter
        [⟨⟨2024, 3, 1⟩, some 8, [⟨"A", 1/200, some true⟩]⟩] 2024)
        2024 750 (15/2)).totalRevenue = (n : ℚ)) ∧
    isTwoDecimal (buildReport (yearFilter
        [⟨⟨2024, 3, 1⟩, some 8, [⟨"A", 1/200, some true⟩]⟩] 2024)
        2024 750 (15/2)).totalOvertimeHours ∧
    isTwoDecimal (buildReport (yearFilter
        [⟨⟨2024, 3, 1⟩, some 8, [⟨"A", 1/200, some true⟩]⟩] 2024)
        2024 750 (15/2)).averageOvertimeHours ∧
    (∃ t, (buildReport (yearFilter
        [⟨⟨2024, 3, 1⟩, some 8, [⟨"A", 1/200, some true⟩]⟩] 2024)
        2024 750 (15/2)).totalHours = some t ∧ isTwoDecimal t) ∧
    (∃ a, (buildReport (yearFilter
        [⟨⟨2024, 3, 1⟩, some 8, [⟨"A", 1/200, some true⟩]⟩] 2024)
        2024 750 (15/2)).averageDailyHours = some a ∧ isTwoDecimal a) ∧
    (∃ p, (buildReport (yearFilter
        [⟨⟨2024, 3, 1⟩, some 8, [⟨"A", 1/200, some true⟩]⟩] 2024)
        2024 750 (15/2)).overtimePercentage = some p ∧ isTwoDecimal p) :=
  C4_output_rounding _ 2024 750 (15/2)
    (by
      intro e he
      rw [show yearFilter [⟨⟨2024, 3, 1⟩, some 8, [⟨"A", 1/200, some true⟩]⟩] 2024 =
          [⟨⟨2024, 3, 1⟩, some 8, [⟨"A", 1/200, some true⟩]⟩] from rfl] at he
      rcases List.mem_singleton.mp he with rfl
      rfl)
    _ (calc_eq_some _ 2024 750 (15/2) (by decide))

/-- C5 counterexample: with a duplicated date 2024-01-02 the source
resets the streak on the zero-day gap and reports 2, while the spec's
distinct-dates walk over the same entries gives 3. -/

theorem C5_counterexample :
    (calculateYearlyStatistics
        [⟨⟨2024, 1, 1⟩, some 8, []⟩, ⟨⟨2024, 1, 2⟩, some 8, []⟩,
         ⟨⟨2024, 1, 2⟩, some 7, []⟩, ⟨⟨2024, 1, 3⟩, some 8, []⟩] 2024 750 (15/2)).map
      YearlyStatistics.longestStreak = some 2 ∧
    specLongestStreak (yearFilter
        [⟨⟨2024, 1, 1⟩, some 8, []⟩, ⟨⟨2024, 1, 2⟩, some 8, []⟩,
         ⟨⟨2024, 1, 2⟩, some 7, []⟩, ⟨⟨2024, 1, 3⟩, some 8, []⟩] 2024) = 3 :=
  ⟨by decide, by decide⟩

/-- Witness for C5 at the claim's own example (01-01, 01-02, 01-04):
distinct dates, streak 2 on both sides. -/

theorem C5_witness :
    (buildReport (yearFilter
        [⟨⟨2024, 1, 1⟩, some 8, []⟩, ⟨⟨2024, 1, 2⟩, some 8, []⟩,
         ⟨⟨2024, 1, 4⟩, some 8, []⟩] 2024) 2024 750 (15/2)).longestStreak =
      specLongestStreak (yearFilter
        [⟨⟨2024, 1, 1⟩, some 8, []⟩, ⟨⟨2024, 1, 2⟩, some 8, []⟩,
         ⟨⟨2024, 1, 4⟩, some 8, []⟩] 2024) ∧
    specLongestStreak (yearFilter
        [⟨⟨2024, 1, 1⟩, some 8, []⟩, ⟨⟨2024, 1, 2⟩, some 8, []⟩,
         ⟨⟨2024, 1, 4⟩, some 8, []⟩] 2024) = 2 :=
  ⟨C5_streak_eq_spec_of_distinct _ 2024 750 (15/2) (by decide) _
      (calc_eq_some _ 2024 750 (15/2) (by decide)),
    by decide⟩

/-- C6 counterexample: two entries on the same date give
`workingDays = 2` although there is only one distinct entry date. -/

theorem C6_counterexample :
    (calculateYearlyStatistics
        [⟨⟨2024, 2, 1⟩, some 8, []⟩, ⟨⟨2024, 2, 1⟩, some 6, []⟩] 2024 750 (15/2)).map
      YearlyStatistics.workingDays = some 2 ∧
    ((yearFilter [⟨⟨2024, 2, 1⟩, some 8, []⟩, ⟨⟨2024, 2, 1⟩, some 6, []⟩] 2024).map
        TimeEntry.date).dedup.length = 1 :=
  ⟨by decide, by decide⟩

/-- Witness for C6 at two distinct-date entries. -/

theorem C6_witness :
    (buildReport (yearFilter
        [⟨⟨2024, 2, 1⟩, some 8, []⟩, ⟨⟨2024, 2, 2⟩, some 6, []⟩] 2024)
        2024 750 (15/2)).workingDays =
      (yearFilter [⟨⟨2024, 2, 1⟩, some 8, []⟩, ⟨⟨2024, 2, 2⟩, some 6, []⟩] 2024).length ∧
    (((yearFilter [⟨⟨2024, 2, 1⟩, some 8, []⟩, ⟨⟨2024, 2, 2⟩, some 6, []⟩] 2024).map
        TimeEntry.date).Nodup →
      (buildReport (yearFilter
          [⟨⟨2024, 2, 1⟩, some 8, []⟩, ⟨⟨2024, 2, 2⟩, some 6, []⟩] 2024)
          2024 750 (15/2)).workingDays =
        ((yearFilter [⟨⟨2024, 2, 1⟩, some 8, []⟩, ⟨⟨2024, 2, 2⟩, some 6, []⟩] 2024).map
          TimeEntry.date).dedup.length) ∧
    (buildReport (yearFilter
        [⟨⟨2024, 2, 1⟩, some 8, []⟩, ⟨⟨2024, 2, 2⟩, some 6, []⟩] 2024)
        2024 750 (15/2)).averageDailyHours =
      some (round2q
        ((((yearFilter [⟨⟨2024, 2, 1⟩, some 8, []⟩, ⟨⟨2024, 2, 2⟩, some 6, []⟩] 2024).map
            (fun e => e.totalHours.getD 0)).sum) /
          ((yearFilter [⟨⟨2024, 2, 1⟩, some 8, []⟩, ⟨⟨2024, 2, 2⟩, some 6, []⟩]
            2024).length : ℚ))) :=
  C6_workingDays_and_average _ 2024 750 (15/2)
    (by
      intro e he
      rw [show yearFilter [⟨⟨2024, 2, 1⟩, some 8, []⟩, ⟨⟨2024, 2, 2⟩, some 6, []⟩] 2024 =
          [⟨⟨2024, 2, 1⟩, some 8, []⟩, ⟨⟨2024, 2, 2⟩, some 6, []⟩] from rfl] at he
      rcases List.mem_cons.mp he with rfl | he
      · rfl
      · rcases List.mem_singleton.mp he with rfl
        rfl)
    _ (calc_eq_some _ 2024 750 (15/2) (by decide))

/-- Witness for C7 at a single March entry: 12 buckets in calendar
order. -/

theorem C7_witness :
    (buildReport (yearFilter [⟨⟨2024, 3, 14⟩, some 8, [⟨"A", 8, some true⟩]⟩] 2024)
        2024 750 (15/2)).monthlyBreakdown.length = 12 ∧
    (buildReport (yearFilter [⟨⟨2024, 3, 14⟩, some 8, [⟨"A", 8, some true⟩]⟩] 2024)
        2024 750 (15/2)).monthlyBreakdown.map MonthlyStats.month = monthNames :=
  ⟨(C7_monthly_breakdown _ 2024 750 (15/2)
      (by
        intro e he
        rw [show yearFilter [⟨⟨2024, 3, 14⟩, some 8, [⟨"A", 8, some true⟩]⟩] 2024 =
            [⟨⟨2024, 3, 14⟩, some 8, [⟨"A", 8, some true⟩]⟩] from rfl] at he
        rcases List.mem_singleton.mp he with rfl
        exact ⟨by norm_num, by norm_num⟩)
      _ (calc_eq_some _ 2024 750 (15/2) (by decide))).1,
   (C7_monthly_breakdown _ 2024 750 (15/2)
      (by
        intro e he
        rw [show yearFilter [⟨⟨2024, 3, 14⟩, some 8, [⟨"A", 8, some true⟩]⟩] 2024 =
            [⟨⟨2024, 3, 14⟩, some 8, [⟨"A", 8, some true⟩]⟩] from rfl] at he
        rcases List.mem_singleton.mp he with rfl
        exact ⟨by norm_num, by norm_num⟩)
      _ (calc_eq_some _ 2024 750 (15/2) (by decide))).2.1⟩

/-- C8 counterexample: an entry with a missing `totalHours` makes the
reported yearly total non-finite (NaN, modelled `none`) instead of the
claimed 0-contribution, while the overtime accumulation does apply the
`|| 0` default and stays 0. -/

theorem C8_counterexample :
    (calculateYearlyStatistics [⟨⟨2024, 4, 2⟩, none, [⟨"A", 2, none⟩]⟩]
        2024 750 (15/2)).map
      (fun r => (r.totalHours, r.totalOvertimeHours)) = some (none, 0) ∧
    (none : JsNum) ≠ some (0 : ℚ) := by
  refine ⟨?_, by decide⟩
  norm_num [calculateYearlyStatistics, buildReport, reportCore, yearFilter, totalHoursSum,
      allAllocations, billableHoursAcc, nonBillableHoursAcc, projectStatsAcc, upsertProject,
      updateStats, freshStats, isBillable, withPercentages, jsAdd, jsMul, jsDiv, jsGt, jsLt,
      jsGe, jsRound, jsRound2, round2q, List.insertionSort, List.orderedInsert, projBefore,
      dateLe, epochDays, daysOf, longestStreakOf, streakGo, monthlyStatsOf, applyEntryMonth,
      entryMonthRecord, entryMonthBase, getMonth, setMonth, addProjectHours, initMonthly,
      monthNames, busiestMonthOf, leastBusyMonthOf, naMonth, milestonesV1,
      totalOvertimeHoursAcc, overtimeDaysAcc, entryOvertime, max_def, round_eq, Int.fdiv]

/-- Witness for C8: one entry with missing `totalHours` poisons the
yearly total. -/

theorem C8_witness :
    (calculateYearlyStatistics [⟨⟨2024, 7, 9⟩, none, []⟩] 2024 750 (15/2)).map
      YearlyStatistics.totalHours = some none :=
  C8_optional_field_defaults.2.2 _ 2024 750 (15/2)
    ⟨⟨⟨2024, 7, 9⟩, none, []⟩, by decide, rfl⟩

/-- Witness for C9 at one entry mixing a billable and a non-billable
allocation. -/

theorem C9_witness :
    (buildReport (yearFilter
        [⟨⟨2024, 5, 6⟩, some 8, [⟨"A", 5, some true⟩, ⟨"B", 3, some false⟩]⟩] 2024)
        2024 750 (15/2)).billableHours = round2q
      ((((allAllocations (yearFilter
          [⟨⟨2024, 5, 6⟩, some 8, [⟨"A", 5, some true⟩, ⟨"B", 3, some false⟩]⟩] 2024)).filter
          isBillable).map Project.hoursAllocated).sum) ∧
    (buildReport (yearFilter
        [⟨⟨2024, 5, 6⟩, some 8, [⟨"A", 5, some true⟩, ⟨"B", 3, some false⟩]⟩] 2024)
        2024 750 (15/2)).nonBillableHours = round2q
      ((((allAllocations (yearFilter
          [⟨⟨2024, 5, 6⟩, some 8, [⟨"A", 5, some true⟩, ⟨"B", 3, some false⟩]⟩] 2024)).filter
          (fun p => !isBillable p)).map Project.hoursAllocated).sum) ∧
    (buildReport (yearFilter
        [⟨⟨2024, 5, 6⟩, some 8, [⟨"A", 5, some true⟩, ⟨"B", 3, some false⟩]⟩] 2024)
        2024 750 (15/2)).totalRevenue = ((round
      (((((allAllocations (yearFilter
          [⟨⟨2024, 5, 6⟩, some 8, [⟨"A", 5, some true⟩, ⟨"B", 3, some false⟩]⟩] 2024)).filter
          isBillable).map Project.hoursAllocated).sum) * 750) : ℤ) : ℚ) ∧
    ∀ s ∈ (buildReport (yearFilter
        [⟨⟨2024, 5, 6⟩, some 8, [⟨"A", 5, some true⟩, ⟨"B", 3, some false⟩]⟩] 2024)
        2024 750 (15/2)).topProjects,
      s.revenue = s.billableHours * 750 ∧
        s.totalHours = s.billableHours + s.nonBillableHours :=
  C9_nonbillable_exclusion _ 2024 750 (15/2) _ (calc_eq_some _ 2024 750 (15/2) (by decide))

/-- Witness for C10: the sorted-output property at the tie-break
input. -/

theorem C10_witness :
    List.Sorted projBefore (buildReport (yearFilter
        [⟨⟨2024, 6, 3⟩, some 12,
          [⟨"C", 2, some true⟩, ⟨"A", 3, some false⟩, ⟨"D", 2, some true⟩,
           ⟨"B", 5, some false⟩]⟩] 2024) 2024 750 (15/2)).topProjects :=
  C10_topProjects_order.1 _ 2024 750 (15/2) _ (calc_eq_some _ 2024 750 (15/2) (by decide))

end TT
